import Mathlib

/-!
# DIO driver of the AVR small operating system (MCAL layer)

Shallow embedding of `SOS/MCAL/dio/dio_program.c` with the constants of
`SOS/MCAL/dio/dio_interface.h`.

* `uint8_t_` registers and arguments are natural numbers; every store into a
  register truncates with `% 256`.
* Enumerations (`enu_dio_port_t_`, `enu_dio_pin_t_`, ...) are passed as natural numbers,
  so that out-of-range selectors can be expressed.
* The twelve memory-mapped registers are the fields of `Regs`; every function takes the
  register file and returns the outcome code together with the register file it leaves.
* The hardware is no part of the sources: `readBack` lets the input data registers take the
  level of the pins, an output pin following its output data register bit.
-/

namespace Dio

/-! ## dio_interface.h -/

/-- The outcome codes `enu_dio_error_t_`. -/
inductive enu_dio_error_t_ where
  | DIO_OK
  | DIO_ERROR
  | DIO_WRONG_PIN
  | DIO_WRONG_PORT
  | DIO_WRONG_PIN_VAL
  | DIO_WRONG_PORT_VAL
  | DIO_READ_ERROR
  deriving DecidableEq

open enu_dio_error_t_

def DIO_MASK_ZERO : Nat := 0
def DIO_NO_MASK : Nat := 0xFF
def DIO_MASK_BITS_0 : Nat := 0x1
def DIO_MASK_BITS_0_1 : Nat := 0x3
def DIO_MASK_BITS_0_1_2 : Nat := 0x7
def DIO_MASK_BITS_0_1_2_3 : Nat := 0xF
def DIO_MASK_BITS_0_1_2_3_4 : Nat := 0x1F
def DIO_MASK_BITS_0_1_2_3_4_5 : Nat := 0x3F
def DIO_MASK_BITS_0_1_2_3_4_5_6 : Nat := 0x7F
def DIO_MASK_BITS_0_1_2_3_4_5_7 : Nat := 0xBF
def DIO_MASK_BITS_0_1_2_3_4_6 : Nat := 0x5F
def DIO_MASK_BITS_0_1_2_3_4_6_7 : Nat := 0xDF
def DIO_MASK_BITS_0_1_2_3_4_7 : Nat := 0x9F
def DIO_MASK_BITS_0_1_2_3_5 : Nat := 0x2F
def DIO_MASK_BITS_0_1_2_3_5_6 : Nat := 0x6F
def DIO_MASK_BITS_0_1_2_3_5_6_7 : Nat := 0xEF
def DIO_MASK_BITS_0_1_2_3_5_7 : Nat := 0xAF
def DIO_MASK_BITS_0_1_2_3_6 : Nat := 0x4F
def DIO_MASK_BITS_0_1_2_3_6_7 : Nat := 0xCF
def DIO_MASK_BITS_0_1_2_3_7 : Nat := 0x8F
def DIO_MASK_BITS_0_1_2_4 : Nat := 0x17
def DIO_MASK_BITS_0_1_2_4_5 : Nat := 0x37
def DIO_MASK_BITS_0_1_2_4_5_6 : Nat := 0x77
def DIO_MASK_BITS_0_1_2_4_5_6_7 : Nat := 0xF7
def DIO_MASK_BITS_0_1_2_4_5_7 : Nat := 0xB7
def DIO_MASK_BITS_0_1_2_4_6 : Nat := 0x57
def DIO_MASK_BITS_0_1_2_4_6_7 : Nat := 0xD7
def DIO_MASK_BITS_0_1_2_4_7 : Nat := 0x97
def DIO_MASK_BITS_0_1_2_5 : Nat := 0x27
def DIO_MASK_BITS_0_1_2_5_6 : Nat := 0x67
def DIO_MASK_BITS_0_1_2_5_6_7 : Nat := 0xE7
def DIO_MASK_BITS_0_1_2_5_7 : Nat := 0xA7
def DIO_MASK_BITS_0_1_2_6 : Nat := 0x47
def DIO_MASK_BITS_0_1_2_6_7 : Nat := 0xC7
def DIO_MASK_BITS_0_1_2_7 : Nat := 0x87
def DIO_MASK_BITS_0_1_3 : Nat := 0xB
def DIO_MASK_BITS_0_1_3_4 : Nat := 0x1B
def DIO_MASK_BITS_0_1_3_4_5 : Nat := 0x3B
def DIO_MASK_BITS_0_1_3_4_5_6 : Nat := 0x7B
def DIO_MASK_BITS_0_1_3_4_5_6_7 : Nat := 0xFB
def DIO_MASK_BITS_0_1_3_4_5_7 : Nat := 0xBB
def DIO_MASK_BITS_0_1_3_4_6 : Nat := 0x5B
def DIO_MASK_BITS_0_1_3_4_6_7 : Nat := 0xDB
def DIO_MASK_BITS_0_1_3_4_7 : Nat := 0x9B
def DIO_MASK_BITS_0_1_3_5 : Nat := 0x2B
def DIO_MASK_BITS_0_1_3_5_6 : Nat := 0x6B
def DIO_MASK_BITS_0_1_3_5_6_7 : Nat := 0xEB
def DIO_MASK_BITS_0_1_3_5_7 : Nat := 0xAB
def DIO_MASK_BITS_0_1_3_6 : Nat := 0x4B
def DIO_MASK_BITS_0_1_3_6_7 : Nat := 0xCB
def DIO_MASK_BITS_0_1_3_7 : Nat := 0x8B
def DIO_MASK_BITS_0_1_4 : Nat := 0x13
def DIO_MASK_BITS_0_1_4_5 : Nat := 0x33
def DIO_MASK_BITS_0_1_4_5_6 : Nat := 0x73
def DIO_MASK_BITS_0_1_4_5_6_7 : Nat := 0xF3
def DIO_MASK_BITS_0_1_4_5_7 : Nat := 0xB3
def DIO_MASK_BITS_0_1_4_6 : Nat := 0x53
def DIO_MASK_BITS_0_1_4_6_7 : Nat := 0xD3
def DIO_MASK_BITS_0_1_4_7 : Nat := 0x93
def DIO_MASK_BITS_0_1_5 : Nat := 0x23
def DIO_MASK_BITS_0_1_5_6 : Nat := 0x63
def DIO_MASK_BITS_0_1_5_6_7 : Nat := 0xE3
def DIO_MASK_BITS_0_1_5_7 : Nat := 0xA3
def DIO_MASK_BITS_0_1_6 : Nat := 0x43
def DIO_MASK_BITS_0_1_6_7 : Nat := 0xC3
def DIO_MASK_BITS_0_1_7 : Nat := 0x83
def DIO_MASK_BITS_0_2 : Nat := 0x5
def DIO_MASK_BITS_0_2_3 : Nat := 0xD
def DIO_MASK_BITS_0_2_3_4 : Nat := 0x1D
def DIO_MASK_BITS_0_2_3_4_5 : Nat := 0x3D
def DIO_MASK_BITS_0_2_3_4_5_6 : Nat := 0x7D
def DIO_MASK_BITS_0_2_3_4_5_6_7 : Nat := 0xFD
def DIO_MASK_BITS_0_2_3_4_5_7 : Nat := 0xBD
def DIO_MASK_BITS_0_2_3_4_6 : Nat := 0x5D
def DIO_MASK_BITS_0_2_3_4_6_7 : Nat := 0xDD
def DIO_MASK_BITS_0_2_3_4_7 : Nat := 0x9D
def DIO_MASK_BITS_0_2_3_5 : Nat := 0x2D
def DIO_MASK_BITS_0_2_3_5_6 : Nat := 0x6D
def DIO_MASK_BITS_0_2_3_5_6_7 : Nat := 0xED
def DIO_MASK_BITS_0_2_3_5_7 : Nat := 0xAD
def DIO_MASK_BITS_0_2_3_6 : Nat := 0x4D
def DIO_MASK_BITS_0_2_3_6_7 : Nat := 0xCD
def DIO_MASK_BITS_0_2_3_7 : Nat := 0x8D
def DIO_MASK_BITS_0_2_4 : Nat := 0x15
def DIO_MASK_BITS_0_2_4_5 : Nat := 0x35
def DIO_MASK_BITS_0_2_4_5_6 : Nat := 0x75
def DIO_MASK_BITS_0_2_4_5_6_7 : Nat := 0xF5
def DIO_MASK_BITS_0_2_4_5_7 : Nat := 0xB5
def DIO_MASK_BITS_0_2_4_6 : Nat := 0x55
def DIO_MASK_BITS_0_2_4_6_7 : Nat := 0xD5
def DIO_MASK_BITS_0_2_4_7 : Nat := 0x95
def DIO_MASK_BITS_0_2_5 : Nat := 0x25
def DIO_MASK_BITS_0_2_5_6 : Nat := 0x65
def DIO_MASK_BITS_0_2_5_6_7 : Nat := 0xE5
def DIO_MASK_BITS_0_2_5_7 : Nat := 0xA5
def DIO_MASK_BITS_0_2_6 : Nat := 0x45
def DIO_MASK_BITS_0_2_6_7 : Nat := 0xC5
def DIO_MASK_BITS_0_2_7 : Nat := 0x85
def DIO_MASK_BITS_0_3 : Nat := 0x9
def DIO_MASK_BITS_0_3_4 : Nat := 0x19
def DIO_MASK_BITS_0_3_4_5 : Nat := 0x39
def DIO_MASK_BITS_0_3_4_5_6 : Nat := 0x79
def DIO_MASK_BITS_0_3_4_5_6_7 : Nat := 0xF9
def DIO_MASK_BITS_0_3_4_5_7 : Nat := 0xB9
def DIO_MASK_BITS_0_3_4_6 : Nat := 0x59
def DIO_MASK_BITS_0_3_4_6_7 : Nat := 0xD9
def DIO_MASK_BITS_0_3_4_7 : Nat := 0x99
def DIO_MASK_BITS_0_3_5 : Nat := 0x29
def DIO_MASK_BITS_0_3_5_6 : Nat := 0x69
def DIO_MASK_BITS_0_3_5_6_7 : Nat := 0xE9
def DIO_MASK_BITS_0_3_5_7 : Nat := 0xA9
def DIO_MASK_BITS_0_3_6 : Nat := 0x49
def DIO_MASK_BITS_0_3_6_7 : Nat := 0xC9
def DIO_MASK_BITS_0_3_7 : Nat := 0x89
def DIO_MASK_BITS_0_4 : Nat := 0x11
def DIO_MASK_BITS_0_4_5 : Nat := 0x31
def DIO_MASK_BITS_0_4_5_6 : Nat := 0x71
def DIO_MASK_BITS_0_4_5_6_7 : Nat := 0xF1
def DIO_MASK_BITS_0_4_5_7 : Nat := 0xB1
def DIO_MASK_BITS_0_4_6 : Nat := 0x51
def DIO_MASK_BITS_0_4_6_7 : Nat := 0xD1
def DIO_MASK_BITS_0_4_7 : Nat := 0x91
def DIO_MASK_BITS_0_5 : Nat := 0x21
def DIO_MASK_BITS_0_5_6 : Nat := 0x61
def DIO_MASK_BITS_0_5_6_7 : Nat := 0xE1
def DIO_MASK_BITS_0_5_7 : Nat := 0xA1
def DIO_MASK_BITS_0_6 : Nat := 0x41
def DIO_MASK_BITS_0_6_7 : Nat := 0xC1
def DIO_MASK_BITS_0_7 : Nat := 0x81
def DIO_MASK_BITS_1 : Nat := 0x2
def DIO_MASK_BITS_1_2 : Nat := 0x6
def DIO_MASK_BITS_1_2_3 : Nat := 0xE
def DIO_MASK_BITS_1_2_3_4 : Nat := 0x1E
def DIO_MASK_BITS_1_2_3_4_5 : Nat := 0x3E
def DIO_MASK_BITS_1_2_3_4_5_6 : Nat := 0x7E
def DIO_MASK_BITS_1_2_3_4_5_6_7 : Nat := 0xFE
def DIO_MASK_BITS_1_2_3_4_5_7 : Nat := 0xBE
def DIO_MASK_BITS_1_2_3_4_6 : Nat := 0x5E
def DIO_MASK_BITS_1_2_3_4_6_7 : Nat := 0xDE
def DIO_MASK_BITS_1_2_3_4_7 : Nat := 0x9E
def DIO_MASK_BITS_1_2_3_5 : Nat := 0x2E
def DIO_MASK_BITS_1_2_3_5_6 : Nat := 0x6E
def DIO_MASK_BITS_1_2_3_5_6_7 : Nat := 0xEE
def DIO_MASK_BITS_1_2_3_5_7 : Nat := 0xAE
def DIO_MASK_BITS_1_2_3_6 : Nat := 0x4E
def DIO_MASK_BITS_1_2_3_6_7 : Nat := 0xCE
def DIO_MASK_BITS_1_2_3_7 : Nat := 0x8E
def DIO_MASK_BITS_1_2_4 : Nat := 0x16
def DIO_MASK_BITS_1_2_4_5 : Nat := 0x36
def DIO_MASK_BITS_1_2_4_5_6 : Nat := 0x76
def DIO_MASK_BITS_1_2_4_5_6_7 : Nat := 0xF6
def DIO_MASK_BITS_1_2_4_5_7 : Nat := 0xB6
def DIO_MASK_BITS_1_2_4_6 : Nat := 0x56
def DIO_MASK_BITS_1_2_4_6_7 : Nat := 0xD6
def DIO_MASK_BITS_1_2_4_7 : Nat := 0x96
def DIO_MASK_BITS_1_2_5 : Nat := 0x26
def DIO_MASK_BITS_1_2_5_6 : Nat := 0x66
def DIO_MASK_BITS_1_2_5_6_7 : Nat := 0xE6
def DIO_MASK_BITS_1_2_5_7 : Nat := 0xA6
def DIO_MASK_BITS_1_2_6 : Nat := 0x46
def DIO_MASK_BITS_1_2_6_7 : Nat := 0xC6
def DIO_MASK_BITS_1_2_7 : Nat := 0x86
def DIO_MASK_BITS_1_3 : Nat := 0xA
def DIO_MASK_BITS_1_3_4 : Nat := 0x1A
def DIO_MASK_BITS_1_3_4_5 : Nat := 0x3A
def DIO_MASK_BITS_1_3_4_5_6 : Nat := 0x7A
def DIO_MASK_BITS_1_3_4_5_6_7 : Nat := 0xFA
def DIO_MASK_BITS_1_3_4_5_7 : Nat := 0xBA
def DIO_MASK_BITS_1_3_4_6 : Nat := 0x5A
def DIO_MASK_BITS_1_3_4_6_7 : Nat := 0xDA
def DIO_MASK_BITS_1_3_4_7 : Nat := 0x9A
def DIO_MASK_BITS_1_3_5 : Nat := 0x2A
def DIO_MASK_BITS_1_3_5_6 : Nat := 0x6A
def DIO_MASK_BITS_1_3_5_6_7 : Nat := 0xEA
def DIO_MASK_BITS_1_3_5_7 : Nat := 0xAA
def DIO_MASK_BITS_1_3_6 : Nat := 0x4A
def DIO_MASK_BITS_1_3_6_7 : Nat := 0xCA
def DIO_MASK_BITS_1_3_7 : Nat := 0x8A
def DIO_MASK_BITS_1_4 : Nat := 0x12
def DIO_MASK_BITS_1_4_5 : Nat := 0x32
def DIO_MASK_BITS_1_4_5_6 : Nat := 0x72
def DIO_MASK_BITS_1_4_5_6_7 : Nat := 0xF2
def DIO_MASK_BITS_1_4_5_7 : Nat := 0xB2
def DIO_MASK_BITS_1_4_6 : Nat := 0x52
def DIO_MASK_BITS_1_4_6_7 : Nat := 0xD2
def DIO_MASK_BITS_1_4_7 : Nat := 0x92
def DIO_MASK_BITS_1_5 : Nat := 0x22
def DIO_MASK_BITS_1_5_6 : Nat := 0x62
def DIO_MASK_BITS_1_5_6_7 : Nat := 0xE2
def DIO_MASK_BITS_1_5_7 : Nat := 0xA2
def DIO_MASK_BITS_1_6 : Nat := 0x42
def DIO_MASK_BITS_1_6_7 : Nat := 0xC2
def DIO_MASK_BITS_1_7 : Nat := 0x82
def DIO_MASK_BITS_2 : Nat := 0x4
def DIO_MASK_BITS_2_3 : Nat := 0xC
def DIO_MASK_BITS_2_3_4 : Nat := 0x1C
def DIO_MASK_BITS_2_3_4_5 : Nat := 0x3C
def DIO_MASK_BITS_2_3_4_5_6 : Nat := 0x7C
def DIO_MASK_BITS_2_3_4_5_6_7 : Nat := 0xFC
def DIO_MASK_BITS_2_3_4_5_7 : Nat := 0xBC
def DIO_MASK_BITS_2_3_4_6 : Nat := 0x5C
def DIO_MASK_BITS_2_3_4_6_7 : Nat := 0xDC
def DIO_MASK_BITS_2_3_4_7 : Nat := 0x9C
def DIO_MASK_BITS_2_3_5 : Nat := 0x2C
def DIO_MASK_BITS_2_3_5_6 : Nat := 0x6C
def DIO_MASK_BITS_2_3_5_6_7 : Nat := 0xEC
def DIO_MASK_BITS_2_3_5_7 : Nat := 0xAC
def DIO_MASK_BITS_2_3_6 : Nat := 0x4C
def DIO_MASK_BITS_2_3_6_7 : Nat := 0xCC
def DIO_MASK_BITS_2_3_7 : Nat := 0x8C
def DIO_MASK_BITS_2_4 : Nat := 0x14
def DIO_MASK_BITS_2_4_5 : Nat := 0x34
def DIO_MASK_BITS_2_4_5_6 : Nat := 0x74
def DIO_MASK_BITS_2_4_5_6_7 : Nat := 0xF4
def DIO_MASK_BITS_2_4_5_7 : Nat := 0xB4
def DIO_MASK_BITS_2_4_6 : Nat := 0x54
def DIO_MASK_BITS_2_4_6_7 : Nat := 0xD4
def DIO_MASK_BITS_2_4_7 : Nat := 0x94
def DIO_MASK_BITS_2_5 : Nat := 0x24
def DIO_MASK_BITS_2_5_6 : Nat := 0x64
def DIO_MASK_BITS_2_5_6_7 : Nat := 0xE4
def DIO_MASK_BITS_2_5_7 : Nat := 0xA4
def DIO_MASK_BITS_2_6 : Nat := 0x44
def DIO_MASK_BITS_2_6_7 : Nat := 0xC4
def DIO_MASK_BITS_2_7 : Nat := 0x84
def DIO_MASK_BITS_3 : Nat := 0x8
def DIO_MASK_BITS_3_4 : Nat := 0x18
def DIO_MASK_BITS_3_4_5 : Nat := 0x38
def DIO_MASK_BITS_3_4_5_6 : Nat := 0x78
def DIO_MASK_BITS_3_4_5_6_7 : Nat := 0xF8
def DIO_MASK_BITS_3_4_5_7 : Nat := 0xB8
def DIO_MASK_BITS_3_4_6 : Nat := 0x58
def DIO_MASK_BITS_3_4_6_7 : Nat := 0xD8
def DIO_MASK_BITS_3_4_7 : Nat := 0x98
def DIO_MASK_BITS_3_5 : Nat := 0x28
def DIO_MASK_BITS_3_5_6 : Nat := 0x68
def DIO_MASK_BITS_3_5_6_7 : Nat := 0xE8
def DIO_MASK_BITS_3_5_7 : Nat := 0xA8
def DIO_MASK_BITS_3_6 : Nat := 0x48
def DIO_MASK_BITS_3_6_7 : Nat := 0xC8
def DIO_MASK_BITS_3_7 : Nat := 0x88
def DIO_MASK_BITS_4 : Nat := 0x10
def DIO_MASK_BITS_4_5 : Nat := 0x30
def DIO_MASK_BITS_4_5_6 : Nat := 0x70
def DIO_MASK_BITS_4_5_6_7 : Nat := 0xF0
def DIO_MASK_BITS_4_5_7 : Nat := 0xB0
def DIO_MASK_BITS_4_6 : Nat := 0x50
def DIO_MASK_BITS_4_6_7 : Nat := 0xD0
def DIO_MASK_BITS_4_7 : Nat := 0x90
def DIO_MASK_BITS_5 : Nat := 0x20
def DIO_MASK_BITS_5_6 : Nat := 0x60
def DIO_MASK_BITS_5_6_7 : Nat := 0xE0
def DIO_MASK_BITS_5_7 : Nat := 0xA0
def DIO_MASK_BITS_6 : Nat := 0x40
def DIO_MASK_BITS_6_7 : Nat := 0xC0
def DIO_MASK_BITS_7 : Nat := 0x80

def DIO_PIN_TOTAL : Nat := 8

def DIO_PIN_LOW : Nat := 0
def DIO_PIN_HIGH : Nat := 1
def DIO_PIN_VAL_TOTAL : Nat := 2

def DIO_PORT_A : Nat := 0
def DIO_PORT_B : Nat := 1
def DIO_PORT_C : Nat := 2
def DIO_PORT_D : Nat := 3
def DIO_PORT_TOTAL : Nat := 4

def DIO_PORT_LOW : Nat := 0x00
def DIO_PORT_HIGH : Nat := 0xFF

def DIO_IN : Nat := 0
def DIO_OUT : Nat := 1

def DIO_PORT_IN : Nat := 0
def DIO_PORT_OUT : Nat := 0xFF

/-! ## Registers and bit macros (dio_private.h, not part of the sources at hand) -/

/-- Modelled from the spec: the register bindings of the absent `dio_private.h`, one
direction register (DDR), one output data register (PORT) and one input data register
(PIN) per port, twelve distinct 8-bit locations. -/
structure Regs where
  DIO_U8_DDR_A_REG : Nat
  DIO_U8_PORT_A_REG : Nat
  DIO_U8_PIN_A_REG : Nat
  DIO_U8_DDR_B_REG : Nat
  DIO_U8_PORT_B_REG : Nat
  DIO_U8_PIN_B_REG : Nat
  DIO_U8_DDR_C_REG : Nat
  DIO_U8_PORT_C_REG : Nat
  DIO_U8_PIN_C_REG : Nat
  DIO_U8_DDR_D_REG : Nat
  DIO_U8_PORT_D_REG : Nat
  DIO_U8_PIN_D_REG : Nat
  deriving DecidableEq

/-- Bitwise complement `~x` of an operand promoted to `int`, as the 16-bit two's
complement pattern of the AVR target (`x` is below `2 ^ 16` in every use). -/
def INT_NOT (x : Nat) : Nat := 65535 - x

/-- Modelled from the spec: the "set bit" macro of the absent `dio_private.h`,
`reg |= (1 << bit)`, returned as the new register value. -/
def SET_BIT (reg bit : Nat) : Nat := (reg ||| (1 <<< bit)) % 256

/-- Modelled from the spec: the "clear bit" macro of the absent `dio_private.h`,
`reg &= ~(1 << bit)`, returned as the new register value. -/
def CLR_BIT (reg bit : Nat) : Nat := (reg &&& INT_NOT (1 <<< bit)) % 256

/-- Modelled from the spec: the macro of the absent `dio_private.h` that extracts the bit
at `bit` from a register, `(reg >> bit) & 1`. -/
def GET_BIT (reg bit : Nat) : Nat := (reg >>> bit) &&& 1

/-- Modelled from the spec: the macro of the absent `dio_private.h` that writes `val` into
the bit at `bit` and leaves the other bits of the register unchanged,
`reg = (reg & ~(1 << bit)) | (val << bit)`, returned as the new register value. -/
def WRITE_BIT (reg bit val : Nat) : Nat :=
  ((reg &&& INT_NOT (1 <<< bit)) ||| (val <<< bit)) % 256

/-- Modelled from the spec: the value an input data register shows once the pins of its
port have settled (glossary: the input data register reflects the live level sensed at each
pin, the output data register drives the pins configured as output). Bit by bit: the output
data register bit where the direction bit is 1, the level read so far, which stands for the
level applied from outside, where the direction bit is 0. -/
def pinLevel (ddr port pin : Nat) : Nat :=
  ((ddr &&& port) ||| ((255 - ddr % 256) &&& pin)) % 256

/-- Modelled from the spec: the read-back of the hardware, which is no part of the
sources: every input data register takes the settled level of its pins; direction and
output data registers are left as they are. -/
def readBack (s : Regs) : Regs :=
  { s with
    DIO_U8_PIN_A_REG := pinLevel s.DIO_U8_DDR_A_REG s.DIO_U8_PORT_A_REG s.DIO_U8_PIN_A_REG,
    DIO_U8_PIN_B_REG := pinLevel s.DIO_U8_DDR_B_REG s.DIO_U8_PORT_B_REG s.DIO_U8_PIN_B_REG,
    DIO_U8_PIN_C_REG := pinLevel s.DIO_U8_DDR_C_REG s.DIO_U8_PORT_C_REG s.DIO_U8_PIN_C_REG,
    DIO_U8_PIN_D_REG := pinLevel s.DIO_U8_DDR_D_REG s.DIO_U8_PORT_D_REG s.DIO_U8_PIN_D_REG }

/-! ## dio_program.c -/

/-- Private helper `dio_pin_port_check`: valid pin and port numbers. -/
def dio_pin_port_check (enu_dio_port enu_dio_pin : Nat) : enu_dio_error_t_ :=
  if enu_dio_pin ≥ DIO_PIN_TOTAL then DIO_WRONG_PIN
  else if enu_dio_port ≥ DIO_PORT_TOTAL then DIO_WRONG_PORT
  else DIO_OK

/-- The function `dio_init`: sets the direction of one pin. -/
def dio_init (s : Regs) (enu_dio_port enu_dio_pin enu_dio_direction : Nat) :
    enu_dio_error_t_ × Regs :=
  let enu_l_dio_error := dio_pin_port_check enu_dio_port enu_dio_pin
  if enu_l_dio_error ≠ DIO_OK then (enu_l_dio_error, s)
  else if enu_dio_port = DIO_PORT_A then
    if enu_dio_direction = DIO_OUT then
      (DIO_OK, { s with DIO_U8_DDR_A_REG := SET_BIT s.DIO_U8_DDR_A_REG enu_dio_pin })
    else if enu_dio_direction = DIO_IN then
      (DIO_OK, { s with DIO_U8_DDR_A_REG := CLR_BIT s.DIO_U8_DDR_A_REG enu_dio_pin })
    else (DIO_WRONG_PIN_VAL, s)
  else if enu_dio_port = DIO_PORT_B then
    if enu_dio_direction = DIO_OUT then
      (DIO_OK, { s with DIO_U8_DDR_B_REG := SET_BIT s.DIO_U8_DDR_B_REG enu_dio_pin })
    else if enu_dio_direction = DIO_IN then
      (DIO_OK, { s with DIO_U8_DDR_B_REG := CLR_BIT s.DIO_U8_DDR_B_REG enu_dio_pin })
    else (DIO_WRONG_PIN_VAL, s)
  else if enu_dio_port = DIO_PORT_C then
    if enu_dio_direction = DIO_OUT then
      (DIO_OK, { s with DIO_U8_DDR_C_REG := SET_BIT s.DIO_U8_DDR_C_REG enu_dio_pin })
    else if enu_dio_direction = DIO_IN then
      (DIO_OK, { s with DIO_U8_DDR_C_REG := CLR_BIT s.DIO_U8_DDR_C_REG enu_dio_pin })
    else (DIO_WRONG_PIN_VAL, s)
  else if enu_dio_port = DIO_PORT_D then
    if enu_dio_direction = DIO_OUT then
      (DIO_OK, { s with DIO_U8_DDR_D_REG := SET_BIT s.DIO_U8_DDR_D_REG enu_dio_pin })
    else if enu_dio_direction = DIO_IN then
      (DIO_OK, { s with DIO_U8_DDR_D_REG := CLR_BIT s.DIO_U8_DDR_D_REG enu_dio_pin })
    else (DIO_WRONG_PIN_VAL, s)
  else (DIO_WRONG_PORT, s)

/-- The function `dio_read`: the third component of the result is the content of
`*enu_dio_pin_val` after the call (`val` before it). -/
def dio_read (s : Regs) (enu_dio_port enu_dio_pin val : Nat) :
    enu_dio_error_t_ × Regs × Nat :=
  let enu_l_dio_error := dio_pin_port_check enu_dio_port enu_dio_pin
  if enu_l_dio_error ≠ DIO_OK then (enu_l_dio_error, s, val)
  else if enu_dio_port = DIO_PORT_A then (DIO_OK, s, GET_BIT s.DIO_U8_PIN_A_REG enu_dio_pin)
  else if enu_dio_port = DIO_PORT_B then (DIO_OK, s, GET_BIT s.DIO_U8_PIN_B_REG enu_dio_pin)
  else if enu_dio_port = DIO_PORT_C then (DIO_OK, s, GET_BIT s.DIO_U8_PIN_C_REG enu_dio_pin)
  else if enu_dio_port = DIO_PORT_D then (DIO_OK, s, GET_BIT s.DIO_U8_PIN_D_REG enu_dio_pin)
  else (DIO_WRONG_PORT, s, val)

/-- The function `dio_write`: writes one bit of an output data register. The `switch` has
no `default`: a selector above `DIO_PORT_TOTAL` falls through to `return DIO_OK`. -/
def dio_write (s : Regs) (enu_dio_port enu_dio_pin enu_dio_pin_val : Nat) :
    enu_dio_error_t_ × Regs :=
  let enu_l_dio_error := dio_pin_port_check enu_dio_port enu_dio_pin
  if enu_l_dio_error ≠ DIO_OK then (enu_l_dio_error, s)
  else if enu_dio_pin_val ≥ DIO_PIN_VAL_TOTAL then (DIO_WRONG_PIN_VAL, s)
  else if enu_dio_port = DIO_PORT_A then
    (DIO_OK, { s with DIO_U8_PORT_A_REG :=
        (WRITE_BIT s.DIO_U8_PORT_A_REG enu_dio_pin enu_dio_pin_val) })
  else if enu_dio_port = DIO_PORT_B then
    (DIO_OK, { s with DIO_U8_PORT_B_REG :=
        (WRITE_BIT s.DIO_U8_PORT_B_REG enu_dio_pin enu_dio_pin_val) })
  else if enu_dio_port = DIO_PORT_C then
    (DIO_OK, { s with DIO_U8_PORT_C_REG :=
        (WRITE_BIT s.DIO_U8_PORT_C_REG enu_dio_pin enu_dio_pin_val) })
  else if enu_dio_port = DIO_PORT_D then
    (DIO_OK, { s with DIO_U8_PORT_D_REG :=
        (WRITE_BIT s.DIO_U8_PORT_D_REG enu_dio_pin enu_dio_pin_val) })
  else if enu_dio_port = DIO_PORT_TOTAL then (DIO_WRONG_PORT, s)
  else (DIO_OK, s)

/-- The function `dio_toggle`: reads the pin with `dio_read`, writes the complement with
`dio_write`; the outcome of the write is discarded. -/
def dio_toggle (s : Regs) (enu_dio_port enu_dio_pin : Nat) : enu_dio_error_t_ × Regs :=
  let enu_l_dio_error := dio_pin_port_check enu_dio_port enu_dio_pin
  if enu_l_dio_error ≠ DIO_OK then (enu_l_dio_error, s)
  else
    let r := dio_read s enu_dio_port enu_dio_pin DIO_PIN_LOW
    if r.1 = DIO_OK then
      let val := if r.2.2 = DIO_PIN_LOW then DIO_PIN_HIGH else DIO_PIN_LOW
      (DIO_OK, (dio_write r.2.1 enu_dio_port enu_dio_pin val).2)
    else (DIO_READ_ERROR, r.2.1)

/-- The function `dio_port_init`: masked write of a direction register. -/
def dio_port_init (s : Regs) (enu_dio_port en_a_portDir u8_a_mask : Nat) :
    enu_dio_error_t_ × Regs :=
  let u8_a_mask := if u8_a_mask = DIO_MASK_ZERO then DIO_NO_MASK else u8_a_mask
  if enu_dio_port = DIO_PORT_A then
    (DIO_OK, { s with DIO_U8_DDR_A_REG :=
        (((INT_NOT u8_a_mask &&& s.DIO_U8_DDR_A_REG) ||| (u8_a_mask &&& en_a_portDir)) % 256) })
  else if enu_dio_port = DIO_PORT_B then
    (DIO_OK, { s with DIO_U8_DDR_B_REG :=
        (((INT_NOT u8_a_mask &&& s.DIO_U8_DDR_B_REG) ||| (u8_a_mask &&& en_a_portDir)) % 256) })
  else if enu_dio_port = DIO_PORT_C then
    (DIO_OK, { s with DIO_U8_DDR_C_REG :=
        (((INT_NOT u8_a_mask &&& s.DIO_U8_DDR_C_REG) ||| (u8_a_mask &&& en_a_portDir)) % 256) })
  else if enu_dio_port = DIO_PORT_D then
    (DIO_OK, { s with DIO_U8_DDR_D_REG :=
        (((INT_NOT u8_a_mask &&& s.DIO_U8_DDR_D_REG) ||| (u8_a_mask &&& en_a_portDir)) % 256) })
  else (DIO_WRONG_PORT, s)

/-- The function `dio_port_write`: masked write of an output data register. -/
def dio_port_write (s : Regs) (enu_dio_port enu_dio_port_val u8_a_mask : Nat) :
    enu_dio_error_t_ × Regs :=
  let u8_a_mask := if u8_a_mask = DIO_MASK_ZERO then DIO_NO_MASK else u8_a_mask
  if enu_dio_port_val ≠ DIO_PORT_LOW ∧ enu_dio_port_val ≠ DIO_PORT_HIGH then
    (DIO_WRONG_PORT_VAL, s)
  else if enu_dio_port = DIO_PORT_A then
    (DIO_OK, { s with DIO_U8_PORT_A_REG :=
        (((INT_NOT u8_a_mask &&& s.DIO_U8_PORT_A_REG) ||| (u8_a_mask &&& enu_dio_port_val)) % 256) })
  else if enu_dio_port = DIO_PORT_B then
    (DIO_OK, { s with DIO_U8_PORT_B_REG :=
        (((INT_NOT u8_a_mask &&& s.DIO_U8_PORT_B_REG) ||| (u8_a_mask &&& enu_dio_port_val)) % 256) })
  else if enu_dio_port = DIO_PORT_C then
    (DIO_OK, { s with DIO_U8_PORT_C_REG :=
        (((INT_NOT u8_a_mask &&& s.DIO_U8_PORT_C_REG) ||| (u8_a_mask &&& enu_dio_port_val)) % 256) })
  else if enu_dio_port = DIO_PORT_D then
    (DIO_OK, { s with DIO_U8_PORT_D_REG :=
        (((INT_NOT u8_a_mask &&& s.DIO_U8_PORT_D_REG) ||| (u8_a_mask &&& enu_dio_port_val)) % 256) })
  else (DIO_ERROR, s)

/-- The function `dio_port_toggle`: XOR of an output data register with the mask. -/
def dio_port_toggle (s : Regs) (enu_dio_port u8_a_mask : Nat) : enu_dio_error_t_ × Regs :=
  let u8_a_mask := if u8_a_mask = DIO_MASK_ZERO then DIO_NO_MASK else u8_a_mask
  if enu_dio_port = DIO_PORT_A then
    (DIO_OK, { s with DIO_U8_PORT_A_REG := (s.DIO_U8_PORT_A_REG ^^^ u8_a_mask) % 256 })
  else if enu_dio_port = DIO_PORT_B then
    (DIO_OK, { s with DIO_U8_PORT_B_REG := (s.DIO_U8_PORT_B_REG ^^^ u8_a_mask) % 256 })
  else if enu_dio_port = DIO_PORT_C then
    (DIO_OK, { s with DIO_U8_PORT_C_REG := (s.DIO_U8_PORT_C_REG ^^^ u8_a_mask) % 256 })
  else if enu_dio_port = DIO_PORT_D then
    (DIO_OK, { s with DIO_U8_PORT_D_REG := (s.DIO_U8_PORT_D_REG ^^^ u8_a_mask) % 256 })
  else (DIO_ERROR, s)

/-! ## Vocabulary of the properties -/

/-- Direction register of port `port` (0 for a selector that names no port). -/
def ddrOf (s : Regs) (port : Nat) : Nat :=
  if port = 0 then s.DIO_U8_DDR_A_REG
  else if port = 1 then s.DIO_U8_DDR_B_REG
  else if port = 2 then s.DIO_U8_DDR_C_REG
  else if port = 3 then s.DIO_U8_DDR_D_REG
  else 0

/-- Output data register of port `port` (0 for a selector that names no port). -/
def portOf (s : Regs) (port : Nat) : Nat :=
  if port = 0 then s.DIO_U8_PORT_A_REG
  else if port = 1 then s.DIO_U8_PORT_B_REG
  else if port = 2 then s.DIO_U8_PORT_C_REG
  else if port = 3 then s.DIO_U8_PORT_D_REG
  else 0

/-- Input data register of port `port` (0 for a selector that names no port). -/
def pinOf (s : Regs) (port : Nat) : Nat :=
  if port = 0 then s.DIO_U8_PIN_A_REG
  else if port = 1 then s.DIO_U8_PIN_B_REG
  else if port = 2 then s.DIO_U8_PIN_C_REG
  else if port = 3 then s.DIO_U8_PIN_D_REG
  else 0

/-- The mask a port-level operation works with, in the words of the properties: all eight
bits for the sentinel 0, the mask itself otherwise. -/
def effMask (mask : Nat) : Nat := if mask = 0 then 0xFF else mask

/-- Every register holds a byte. -/
def Regs.wf (s : Regs) : Prop :=
  s.DIO_U8_DDR_A_REG < 256 ∧ s.DIO_U8_PORT_A_REG < 256 ∧ s.DIO_U8_PIN_A_REG < 256 ∧
  s.DIO_U8_DDR_B_REG < 256 ∧ s.DIO_U8_PORT_B_REG < 256 ∧ s.DIO_U8_PIN_B_REG < 256 ∧
  s.DIO_U8_DDR_C_REG < 256 ∧ s.DIO_U8_PORT_C_REG < 256 ∧ s.DIO_U8_PIN_C_REG < 256 ∧
  s.DIO_U8_DDR_D_REG < 256 ∧ s.DIO_U8_PORT_D_REG < 256 ∧ s.DIO_U8_PIN_D_REG < 256

instance (s : Regs) : Decidable s.wf := by
  unfold Regs.wf
  infer_instance

/-- Register file with the output data register of port `port` replaced by `v`. -/
def setPort (s : Regs) (port v : Nat) : Regs :=
  if port = 0 then { s with DIO_U8_PORT_A_REG := v }
  else if port = 1 then { s with DIO_U8_PORT_B_REG := v }
  else if port = 2 then { s with DIO_U8_PORT_C_REG := v }
  else if port = 3 then { s with DIO_U8_PORT_D_REG := v }
  else s

/-- Register file with the direction register of port `port` replaced by `v`. -/
def setDdr (s : Regs) (port v : Nat) : Regs :=
  if port = 0 then { s with DIO_U8_DDR_A_REG := v }
  else if port = 1 then { s with DIO_U8_DDR_B_REG := v }
  else if port = 2 then { s with DIO_U8_DDR_C_REG := v }
  else if port = 3 then { s with DIO_U8_DDR_D_REG := v }
  else s

/-- `t` agrees with `s` on every register except, possibly, the direction register of
port `port`. -/
def onlyDdrChanged (s t : Regs) (port : Nat) : Prop :=
  ∀ q, pinOf t q = pinOf s q ∧ portOf t q = portOf s q ∧ (q ≠ port → ddrOf t q = ddrOf s q)

/-- `t` agrees with `s` on every register except, possibly, the output data register of
port `port`. -/
def onlyPortChanged (s t : Regs) (port : Nat) : Prop :=
  ∀ q, pinOf t q = pinOf s q ∧ ddrOf t q = ddrOf s q ∧ (q ≠ port → portOf t q = portOf s q)

/-- Register file after the first step of the scenario, `init_pin(PORT_A, PIN_3, OUT)`,
once the pins have settled. -/
def scenarioInit (s : Regs) : Regs := readBack (dio_init s DIO_PORT_A 3 DIO_OUT).2

/-- Register file after the second step of the scenario, `write_pin(PORT_A, PIN_3, HIGH)`,
once the pins have settled. -/
def scenarioWrite (s : Regs) : Regs :=
  readBack (dio_write (scenarioInit s) DIO_PORT_A 3 DIO_PIN_HIGH).2

/-- Register file after the third step of the scenario, `toggle_pin(PORT_A, PIN_3)`, once
the pins have settled. -/
def scenarioToggle (s : Regs) : Regs := readBack (dio_toggle (scenarioWrite s) DIO_PORT_A 3).2

/-- The `DIO_MASK_BITS_*` constants in the order of the header, each with the bit numbers
its identifier names. -/
def maskTable : List (List Nat × Nat) := [
  ([0], DIO_MASK_BITS_0),
  ([0, 1], DIO_MASK_BITS_0_1),
  ([0, 1, 2], DIO_MASK_BITS_0_1_2),
  ([0, 1, 2, 3], DIO_MASK_BITS_0_1_2_3),
  ([0, 1, 2, 3, 4], DIO_MASK_BITS_0_1_2_3_4),
  ([0, 1, 2, 3, 4, 5], DIO_MASK_BITS_0_1_2_3_4_5),
  ([0, 1, 2, 3, 4, 5, 6], DIO_MASK_BITS_0_1_2_3_4_5_6),
  ([0, 1, 2, 3, 4, 5, 7], DIO_MASK_BITS_0_1_2_3_4_5_7),
  ([0, 1, 2, 3, 4, 6], DIO_MASK_BITS_0_1_2_3_4_6),
  ([0, 1, 2, 3, 4, 6, 7], DIO_MASK_BITS_0_1_2_3_4_6_7),
  ([0, 1, 2, 3, 4, 7], DIO_MASK_BITS_0_1_2_3_4_7),
  ([0, 1, 2, 3, 5], DIO_MASK_BITS_0_1_2_3_5),
  ([0, 1, 2, 3, 5, 6], DIO_MASK_BITS_0_1_2_3_5_6),
  ([0, 1, 2, 3, 5, 6, 7], DIO_MASK_BITS_0_1_2_3_5_6_7),
  ([0, 1, 2, 3, 5, 7], DIO_MASK_BITS_0_1_2_3_5_7),
  ([0, 1, 2, 3, 6], DIO_MASK_BITS_0_1_2_3_6),
  ([0, 1, 2, 3, 6, 7], DIO_MASK_BITS_0_1_2_3_6_7),
  ([0, 1, 2, 3, 7], DIO_MASK_BITS_0_1_2_3_7),
  ([0, 1, 2, 4], DIO_MASK_BITS_0_1_2_4),
  ([0, 1, 2, 4, 5], DIO_MASK_BITS_0_1_2_4_5),
  ([0, 1, 2, 4, 5, 6], DIO_MASK_BITS_0_1_2_4_5_6),
  ([0, 1, 2, 4, 5, 6, 7], DIO_MASK_BITS_0_1_2_4_5_6_7),
  ([0, 1, 2, 4, 5, 7], DIO_MASK_BITS_0_1_2_4_5_7),
  ([0, 1, 2, 4, 6], DIO_MASK_BITS_0_1_2_4_6),
  ([0, 1, 2, 4, 6, 7], DIO_MASK_BITS_0_1_2_4_6_7),
  ([0, 1, 2, 4, 7], DIO_MASK_BITS_0_1_2_4_7),
  ([0, 1, 2, 5], DIO_MASK_BITS_0_1_2_5),
  ([0, 1, 2, 5, 6], DIO_MASK_BITS_0_1_2_5_6),
  ([0, 1, 2, 5, 6, 7], DIO_MASK_BITS_0_1_2_5_6_7),
  ([0, 1, 2, 5, 7], DIO_MASK_BITS_0_1_2_5_7),
  ([0, 1, 2, 6], DIO_MASK_BITS_0_1_2_6),
  ([0, 1, 2, 6, 7], DIO_MASK_BITS_0_1_2_6_7),
  ([0, 1, 2, 7], DIO_MASK_BITS_0_1_2_7),
  ([0, 1, 3], DIO_MASK_BITS_0_1_3),
  ([0, 1, 3, 4], DIO_MASK_BITS_0_1_3_4),
  ([0, 1, 3, 4, 5], DIO_MASK_BITS_0_1_3_4_5),
  ([0, 1, 3, 4, 5, 6], DIO_MASK_BITS_0_1_3_4_5_6),
  ([0, 1, 3, 4, 5, 6, 7], DIO_MASK_BITS_0_1_3_4_5_6_7),
  ([0, 1, 3, 4, 5, 7], DIO_MASK_BITS_0_1_3_4_5_7),
  ([0, 1, 3, 4, 6], DIO_MASK_BITS_0_1_3_4_6),
  ([0, 1, 3, 4, 6, 7], DIO_MASK_BITS_0_1_3_4_6_7),
  ([0, 1, 3, 4, 7], DIO_MASK_BITS_0_1_3_4_7),
  ([0, 1, 3, 5], DIO_MASK_BITS_0_1_3_5),
  ([0, 1, 3, 5, 6], DIO_MASK_BITS_0_1_3_5_6),
  ([0, 1, 3, 5, 6, 7], DIO_MASK_BITS_0_1_3_5_6_7),
  ([0, 1, 3, 5, 7], DIO_MASK_BITS_0_1_3_5_7),
  ([0, 1, 3, 6], DIO_MASK_BITS_0_1_3_6),
  ([0, 1, 3, 6, 7], DIO_MASK_BITS_0_1_3_6_7),
  ([0, 1, 3, 7], DIO_MASK_BITS_0_1_3_7),
  ([0, 1, 4], DIO_MASK_BITS_0_1_4),
  ([0, 1, 4, 5], DIO_MASK_BITS_0_1_4_5),
  ([0, 1, 4, 5, 6], DIO_MASK_BITS_0_1_4_5_6),
  ([0, 1, 4, 5, 6, 7], DIO_MASK_BITS_0_1_4_5_6_7),
  ([0, 1, 4, 5, 7], DIO_MASK_BITS_0_1_4_5_7),
  ([0, 1, 4, 6], DIO_MASK_BITS_0_1_4_6),
  ([0, 1, 4, 6, 7], DIO_MASK_BITS_0_1_4_6_7),
  ([0, 1, 4, 7], DIO_MASK_BITS_0_1_4_7),
  ([0, 1, 5], DIO_MASK_BITS_0_1_5),
  ([0, 1, 5, 6], DIO_MASK_BITS_0_1_5_6),
  ([0, 1, 5, 6, 7], DIO_MASK_BITS_0_1_5_6_7),
  ([0, 1, 5, 7], DIO_MASK_BITS_0_1_5_7),
  ([0, 1, 6], DIO_MASK_BITS_0_1_6),
  ([0, 1, 6, 7], DIO_MASK_BITS_0_1_6_7),
  ([0, 1, 7], DIO_MASK_BITS_0_1_7),
  ([0, 2], DIO_MASK_BITS_0_2),
  ([0, 2, 3], DIO_MASK_BITS_0_2_3),
  ([0, 2, 3, 4], DIO_MASK_BITS_0_2_3_4),
  ([0, 2, 3, 4, 5], DIO_MASK_BITS_0_2_3_4_5),
  ([0, 2, 3, 4, 5, 6], DIO_MASK_BITS_0_2_3_4_5_6),
  ([0, 2, 3, 4, 5, 6, 7], DIO_MASK_BITS_0_2_3_4_5_6_7),
  ([0, 2, 3, 4, 5, 7], DIO_MASK_BITS_0_2_3_4_5_7),
  ([0, 2, 3, 4, 6], DIO_MASK_BITS_0_2_3_4_6),
  ([0, 2, 3, 4, 6, 7], DIO_MASK_BITS_0_2_3_4_6_7),
  ([0, 2, 3, 4, 7], DIO_MASK_BITS_0_2_3_4_7),
  ([0, 2, 3, 5], DIO_MASK_BITS_0_2_3_5),
  ([0, 2, 3, 5, 6], DIO_MASK_BITS_0_2_3_5_6),
  ([0, 2, 3, 5, 6, 7], DIO_MASK_BITS_0_2_3_5_6_7),
  ([0, 2, 3, 5, 7], DIO_MASK_BITS_0_2_3_5_7),
  ([0, 2, 3, 6], DIO_MASK_BITS_0_2_3_6),
  ([0, 2, 3, 6, 7], DIO_MASK_BITS_0_2_3_6_7),
  ([0, 2, 3, 7], DIO_MASK_BITS_0_2_3_7),
  ([0, 2, 4], DIO_MASK_BITS_0_2_4),
  ([0, 2, 4, 5], DIO_MASK_BITS_0_2_4_5),
  ([0, 2, 4, 5, 6], DIO_MASK_BITS_0_2_4_5_6),
  ([0, 2, 4, 5, 6, 7], DIO_MASK_BITS_0_2_4_5_6_7),
  ([0, 2, 4, 5, 7], DIO_MASK_BITS_0_2_4_5_7),
  ([0, 2, 4, 6], DIO_MASK_BITS_0_2_4_6),
  ([0, 2, 4, 6, 7], DIO_MASK_BITS_0_2_4_6_7),
  ([0, 2, 4, 7], DIO_MASK_BITS_0_2_4_7),
  ([0, 2, 5], DIO_MASK_BITS_0_2_5),
  ([0, 2, 5, 6], DIO_MASK_BITS_0_2_5_6),
  ([0, 2, 5, 6, 7], DIO_MASK_BITS_0_2_5_6_7),
  ([0, 2, 5, 7], DIO_MASK_BITS_0_2_5_7),
  ([0, 2, 6], DIO_MASK_BITS_0_2_6),
  ([0, 2, 6, 7], DIO_MASK_BITS_0_2_6_7),
  ([0, 2, 7], DIO_MASK_BITS_0_2_7),
  ([0, 3], DIO_MASK_BITS_0_3),
  ([0, 3, 4], DIO_MASK_BITS_0_3_4),
  ([0, 3, 4, 5], DIO_MASK_BITS_0_3_4_5),
  ([0, 3, 4, 5, 6], DIO_MASK_BITS_0_3_4_5_6),
  ([0, 3, 4, 5, 6, 7], DIO_MASK_BITS_0_3_4_5_6_7),
  ([0, 3, 4, 5, 7], DIO_MASK_BITS_0_3_4_5_7),
  ([0, 3, 4, 6], DIO_MASK_BITS_0_3_4_6),
  ([0, 3, 4, 6, 7], DIO_MASK_BITS_0_3_4_6_7),
  ([0, 3, 4, 7], DIO_MASK_BITS_0_3_4_7),
  ([0, 3, 5], DIO_MASK_BITS_0_3_5),
  ([0, 3, 5, 6], DIO_MASK_BITS_0_3_5_6),
  ([0, 3, 5, 6, 7], DIO_MASK_BITS_0_3_5_6_7),
  ([0, 3, 5, 7], DIO_MASK_BITS_0_3_5_7),
  ([0, 3, 6], DIO_MASK_BITS_0_3_6),
  ([0, 3, 6, 7], DIO_MASK_BITS_0_3_6_7),
  ([0, 3, 7], DIO_MASK_BITS_0_3_7),
  ([0, 4], DIO_MASK_BITS_0_4),
  ([0, 4, 5], DIO_MASK_BITS_0_4_5),
  ([0, 4, 5, 6], DIO_MASK_BITS_0_4_5_6),
  ([0, 4, 5, 6, 7], DIO_MASK_BITS_0_4_5_6_7),
  ([0, 4, 5, 7], DIO_MASK_BITS_0_4_5_7),
  ([0, 4, 6], DIO_MASK_BITS_0_4_6),
  ([0, 4, 6, 7], DIO_MASK_BITS_0_4_6_7),
  ([0, 4, 7], DIO_MASK_BITS_0_4_7),
  ([0, 5], DIO_MASK_BITS_0_5),
  ([0, 5, 6], DIO_MASK_BITS_0_5_6),
  ([0, 5, 6, 7], DIO_MASK_BITS_0_5_6_7),
  ([0, 5, 7], DIO_MASK_BITS_0_5_7),
  ([0, 6], DIO_MASK_BITS_0_6),
  ([0, 6, 7], DIO_MASK_BITS_0_6_7),
  ([0, 7], DIO_MASK_BITS_0_7),
  ([1], DIO_MASK_BITS_1),
  ([1, 2], DIO_MASK_BITS_1_2),
  ([1, 2, 3], DIO_MASK_BITS_1_2_3),
  ([1, 2, 3, 4], DIO_MASK_BITS_1_2_3_4),
  ([1, 2, 3, 4, 5], DIO_MASK_BITS_1_2_3_4_5),
  ([1, 2, 3, 4, 5, 6], DIO_MASK_BITS_1_2_3_4_5_6),
  ([1, 2, 3, 4, 5, 6, 7], DIO_MASK_BITS_1_2_3_4_5_6_7),
  ([1, 2, 3, 4, 5, 7], DIO_MASK_BITS_1_2_3_4_5_7),
  ([1, 2, 3, 4, 6], DIO_MASK_BITS_1_2_3_4_6),
  ([1, 2, 3, 4, 6, 7], DIO_MASK_BITS_1_2_3_4_6_7),
  ([1, 2, 3, 4, 7], DIO_MASK_BITS_1_2_3_4_7),
  ([1, 2, 3, 5], DIO_MASK_BITS_1_2_3_5),
  ([1, 2, 3, 5, 6], DIO_MASK_BITS_1_2_3_5_6),
  ([1, 2, 3, 5, 6, 7], DIO_MASK_BITS_1_2_3_5_6_7),
  ([1, 2, 3, 5, 7], DIO_MASK_BITS_1_2_3_5_7),
  ([1, 2, 3, 6], DIO_MASK_BITS_1_2_3_6),
  ([1, 2, 3, 6, 7], DIO_MASK_BITS_1_2_3_6_7),
  ([1, 2, 3, 7], DIO_MASK_BITS_1_2_3_7),
  ([1, 2, 4], DIO_MASK_BITS_1_2_4),
  ([1, 2, 4, 5], DIO_MASK_BITS_1_2_4_5),
  ([1, 2, 4, 5, 6], DIO_MASK_BITS_1_2_4_5_6),
  ([1, 2, 4, 5, 6, 7], DIO_MASK_BITS_1_2_4_5_6_7),
  ([1, 2, 4, 5, 7], DIO_MASK_BITS_1_2_4_5_7),
  ([1, 2, 4, 6], DIO_MASK_BITS_1_2_4_6),
  ([1, 2, 4, 6, 7], DIO_MASK_BITS_1_2_4_6_7),
  ([1, 2, 4, 7], DIO_MASK_BITS_1_2_4_7),
  ([1, 2, 5], DIO_MASK_BITS_1_2_5),
  ([1, 2, 5, 6], DIO_MASK_BITS_1_2_5_6),
  ([1, 2, 5, 6, 7], DIO_MASK_BITS_1_2_5_6_7),
  ([1, 2, 5, 7], DIO_MASK_BITS_1_2_5_7),
  ([1, 2, 6], DIO_MASK_BITS_1_2_6),
  ([1, 2, 6, 7], DIO_MASK_BITS_1_2_6_7),
  ([1, 2, 7], DIO_MASK_BITS_1_2_7),
  ([1, 3], DIO_MASK_BITS_1_3),
  ([1, 3, 4], DIO_MASK_BITS_1_3_4),
  ([1, 3, 4, 5], DIO_MASK_BITS_1_3_4_5),
  ([1, 3, 4, 5, 6], DIO_MASK_BITS_1_3_4_5_6),
  ([1, 3, 4, 5, 6, 7], DIO_MASK_BITS_1_3_4_5_6_7),
  ([1, 3, 4, 5, 7], DIO_MASK_BITS_1_3_4_5_7),
  ([1, 3, 4, 6], DIO_MASK_BITS_1_3_4_6),
  ([1, 3, 4, 6, 7], DIO_MASK_BITS_1_3_4_6_7),
  ([1, 3, 4, 7], DIO_MASK_BITS_1_3_4_7),
  ([1, 3, 5], DIO_MASK_BITS_1_3_5),
  ([1, 3, 5, 6], DIO_MASK_BITS_1_3_5_6),
  ([1, 3, 5, 6, 7], DIO_MASK_BITS_1_3_5_6_7),
  ([1, 3, 5, 7], DIO_MASK_BITS_1_3_5_7),
  ([1, 3, 6], DIO_MASK_BITS_1_3_6),
  ([1, 3, 6, 7], DIO_MASK_BITS_1_3_6_7),
  ([1, 3, 7], DIO_MASK_BITS_1_3_7),
  ([1, 4], DIO_MASK_BITS_1_4),
  ([1, 4, 5], DIO_MASK_BITS_1_4_5),
  ([1, 4, 5, 6], DIO_MASK_BITS_1_4_5_6),
  ([1, 4, 5, 6, 7], DIO_MASK_BITS_1_4_5_6_7),
  ([1, 4, 5, 7], DIO_MASK_BITS_1_4_5_7),
  ([1, 4, 6], DIO_MASK_BITS_1_4_6),
  ([1, 4, 6, 7], DIO_MASK_BITS_1_4_6_7),
  ([1, 4, 7], DIO_MASK_BITS_1_4_7),
  ([1, 5], DIO_MASK_BITS_1_5),
  ([1, 5, 6], DIO_MASK_BITS_1_5_6),
  ([1, 5, 6, 7], DIO_MASK_BITS_1_5_6_7),
  ([1, 5, 7], DIO_MASK_BITS_1_5_7),
  ([1, 6], DIO_MASK_BITS_1_6),
  ([1, 6, 7], DIO_MASK_BITS_1_6_7),
  ([1, 7], DIO_MASK_BITS_1_7),
  ([2], DIO_MASK_BITS_2),
  ([2, 3], DIO_MASK_BITS_2_3),
  ([2, 3, 4], DIO_MASK_BITS_2_3_4),
  ([2, 3, 4, 5], DIO_MASK_BITS_2_3_4_5),
  ([2, 3, 4, 5, 6], DIO_MASK_BITS_2_3_4_5_6),
  ([2, 3, 4, 5, 6, 7], DIO_MASK_BITS_2_3_4_5_6_7),
  ([2, 3, 4, 5, 7], DIO_MASK_BITS_2_3_4_5_7),
  ([2, 3, 4, 6], DIO_MASK_BITS_2_3_4_6),
  ([2, 3, 4, 6, 7], DIO_MASK_BITS_2_3_4_6_7),
  ([2, 3, 4, 7], DIO_MASK_BITS_2_3_4_7),
  ([2, 3, 5], DIO_MASK_BITS_2_3_5),
  ([2, 3, 5, 6], DIO_MASK_BITS_2_3_5_6),
  ([2, 3, 5, 6, 7], DIO_MASK_BITS_2_3_5_6_7),
  ([2, 3, 5, 7], DIO_MASK_BITS_2_3_5_7),
  ([2, 3, 6], DIO_MASK_BITS_2_3_6),
  ([2, 3, 6, 7], DIO_MASK_BITS_2_3_6_7),
  ([2, 3, 7], DIO_MASK_BITS_2_3_7),
  ([2, 4], DIO_MASK_BITS_2_4),
  ([2, 4, 5], DIO_MASK_BITS_2_4_5),
  ([2, 4, 5, 6], DIO_MASK_BITS_2_4_5_6),
  ([2, 4, 5, 6, 7], DIO_MASK_BITS_2_4_5_6_7),
  ([2, 4, 5, 7], DIO_MASK_BITS_2_4_5_7),
  ([2, 4, 6], DIO_MASK_BITS_2_4_6),
  ([2, 4, 6, 7], DIO_MASK_BITS_2_4_6_7),
  ([2, 4, 7], DIO_MASK_BITS_2_4_7),
  ([2, 5], DIO_MASK_BITS_2_5),
  ([2, 5, 6], DIO_MASK_BITS_2_5_6),
  ([2, 5, 6, 7], DIO_MASK_BITS_2_5_6_7),
  ([2, 5, 7], DIO_MASK_BITS_2_5_7),
  ([2, 6], DIO_MASK_BITS_2_6),
  ([2, 6, 7], DIO_MASK_BITS_2_6_7),
  ([2, 7], DIO_MASK_BITS_2_7),
  ([3], DIO_MASK_BITS_3),
  ([3, 4], DIO_MASK_BITS_3_4),
  ([3, 4, 5], DIO_MASK_BITS_3_4_5),
  ([3, 4, 5, 6], DIO_MASK_BITS_3_4_5_6),
  ([3, 4, 5, 6, 7], DIO_MASK_BITS_3_4_5_6_7),
  ([3, 4, 5, 7], DIO_MASK_BITS_3_4_5_7),
  ([3, 4, 6], DIO_MASK_BITS_3_4_6),
  ([3, 4, 6, 7], DIO_MASK_BITS_3_4_6_7),
  ([3, 4, 7], DIO_MASK_BITS_3_4_7),
  ([3, 5], DIO_MASK_BITS_3_5),
  ([3, 5, 6], DIO_MASK_BITS_3_5_6),
  ([3, 5, 6, 7], DIO_MASK_BITS_3_5_6_7),
  ([3, 5, 7], DIO_MASK_BITS_3_5_7),
  ([3, 6], DIO_MASK_BITS_3_6),
  ([3, 6, 7], DIO_MASK_BITS_3_6_7),
  ([3, 7], DIO_MASK_BITS_3_7),
  ([4], DIO_MASK_BITS_4),
  ([4, 5], DIO_MASK_BITS_4_5),
  ([4, 5, 6], DIO_MASK_BITS_4_5_6),
  ([4, 5, 6, 7], DIO_MASK_BITS_4_5_6_7),
  ([4, 5, 7], DIO_MASK_BITS_4_5_7),
  ([4, 6], DIO_MASK_BITS_4_6),
  ([4, 6, 7], DIO_MASK_BITS_4_6_7),
  ([4, 7], DIO_MASK_BITS_4_7),
  ([5], DIO_MASK_BITS_5),
  ([5, 6], DIO_MASK_BITS_5_6),
  ([5, 6, 7], DIO_MASK_BITS_5_6_7),
  ([5, 7], DIO_MASK_BITS_5_7),
  ([6], DIO_MASK_BITS_6),
  ([6, 7], DIO_MASK_BITS_6_7),
  ([7], DIO_MASK_BITS_7)]

/-- The function `f` on register values is a masked store of the pattern `d` under the
mask `m`: its result is a byte whose bits selected by `m` are those of `d` and whose other
bits are those of the argument. -/
def IsMaskedStore (f : Nat → Nat) (m d : Nat) : Prop :=
  ∀ x, f x < 256 ∧
    ∀ i, i < 8 → (f x).testBit i = if m.testBit i = true then d.testBit i else x.testBit i

/-- The operation `op` either rejects the call on every register file, leaving it as it
is, or returns `DIO_OK` and performs a masked store under the mask `M` into the direction
register of port `port`. -/
def IsDdrStoreOp (op : Regs → enu_dio_error_t_ × Regs) (port M : Nat) : Prop :=
  (∃ c, ∀ t, op t = (c, t)) ∨
  (port < 4 ∧ ∃ f d, IsMaskedStore f M d ∧
    ∀ t, op t = (enu_dio_error_t_.DIO_OK, setDdr t port (f (ddrOf t port))))

/-- The operation `op` either rejects the call on every register file, leaving it as it
is, or returns `DIO_OK` and performs a masked store under the mask `M` into the output data
register of port `port`. -/
def IsPortStoreOp (op : Regs → enu_dio_error_t_ × Regs) (port M : Nat) : Prop :=
  (∃ c, ∀ t, op t = (c, t)) ∨
  (port < 4 ∧ ∃ f d, IsMaskedStore f M d ∧
    ∀ t, op t = (enu_dio_error_t_.DIO_OK, setPort t port (f (portOf t port))))

/-- A register file used in the concrete evaluations. -/
def sampleRegs : Regs :=
  { DIO_U8_DDR_A_REG := 0x0F, DIO_U8_PORT_A_REG := 0xA5, DIO_U8_PIN_A_REG := 0x3C,
    DIO_U8_DDR_B_REG := 0xAA, DIO_U8_PORT_B_REG := 0x55, DIO_U8_PIN_B_REG := 0x00,
    DIO_U8_DDR_C_REG := 0x00, DIO_U8_PORT_C_REG := 0x12, DIO_U8_PIN_C_REG := 0xFF,
    DIO_U8_DDR_D_REG := 0xFF, DIO_U8_PORT_D_REG := 0x80, DIO_U8_PIN_D_REG := 0x01 }

/-! ## Bit-level lemmas -/

theorem INT_NOT_testBit (x i : Nat) (hx : x < 65536) :
    (INT_NOT x).testBit i = (decide (i < 16) && !x.testBit i) := by
  have h : INT_NOT x = 2 ^ 16 - (x + 1) := by unfold INT_NOT; omega
  rw [h]
  exact Nat.testBit_two_pow_sub_succ (by simpa using hx) i

theorem testBit_mod_256 (x i : Nat) :
    (x % 256).testBit i = (decide (i < 8) && x.testBit i) := by
  have h : (256 : Nat) = 2 ^ 8 := by norm_num
  rw [h, Nat.testBit_mod_two_pow]

theorem one_shiftLeft_lt (bit : Nat) (h : bit < 8) : 1 <<< bit < 65536 := by
  rw [Nat.one_shiftLeft]
  calc 2 ^ bit < 2 ^ 8 := Nat.pow_lt_pow_right (by norm_num) h
    _ ≤ 65536 := by norm_num

theorem one_shiftLeft_testBit (bit i : Nat) : (1 <<< bit).testBit i = decide (bit = i) := by
  rw [Nat.one_shiftLeft, Nat.testBit_two_pow]

theorem SET_BIT_testBit (reg bit i : Nat) (hi : i < 8) :
    (SET_BIT reg bit).testBit i = (reg.testBit i || decide (bit = i)) := by
  unfold SET_BIT
  rw [testBit_mod_256, Nat.testBit_or, one_shiftLeft_testBit]
  simp [hi]

theorem CLR_BIT_testBit (reg bit i : Nat) (hb : bit < 8) (hi : i < 8) :
    (CLR_BIT reg bit).testBit i = (reg.testBit i && !decide (bit = i)) := by
  unfold CLR_BIT
  rw [testBit_mod_256, Nat.testBit_and, INT_NOT_testBit _ _ (one_shiftLeft_lt bit hb),
    one_shiftLeft_testBit]
  have : i < 16 := by omega
  simp [hi, this]

theorem WRITE_BIT_testBit (reg bit val i : Nat) (hb : bit < 8) (hv : val < 2) (hi : i < 8) :
    (WRITE_BIT reg bit val).testBit i =
      if bit = i then decide (val = 1) else reg.testBit i := by
  unfold WRITE_BIT
  rw [testBit_mod_256, Nat.testBit_or, Nat.testBit_and,
    INT_NOT_testBit _ _ (one_shiftLeft_lt bit hb), one_shiftLeft_testBit,
    Nat.testBit_shiftLeft]
  have h16 : i < 16 := by omega
  have hv2 : val = 0 ∨ val = 1 := by omega
  by_cases hbi : bit = i
  · subst hbi
    rcases hv2 with rfl | rfl <;> simp [hi]
  · have hv3 : val.testBit (i - bit) = true → bit = i ∨ i < bit := by
      intro ht
      rcases hv2 with rfl | rfl
      · simp at ht
      · by_contra hc
        have : i - bit ≠ 0 := by omega
        obtain ⟨k, hk⟩ := Nat.exists_eq_succ_of_ne_zero this
        rw [hk, Nat.testBit_succ] at ht
        simp at ht
    by_cases hge : i ≥ bit
    · cases hvt : val.testBit (i - bit)
      · simp [hi, h16, hbi, hge]
      · exfalso
        rcases hv3 hvt with h | h
        · exact hbi h
        · omega
    · simp [hi, h16, hbi, hge]

theorem GET_BIT_eq (reg bit : Nat) : GET_BIT reg bit = (reg.testBit bit).toNat := by
  unfold GET_BIT
  rw [Nat.and_one_is_mod, Nat.toNat_testBit, Nat.shiftRight_eq_div_pow]

/-! ## Normal forms of the operations on valid selectors -/

theorem port_cases (port : Nat) :
    port = 0 ∨ port = 1 ∨ port = 2 ∨ port = 3 ∨ 4 ≤ port := by omega

theorem setPort_ge (s : Regs) (port v : Nat) (h : 4 ≤ port) : setPort s port v = s := by
  unfold setPort
  rw [if_neg (by omega), if_neg (by omega), if_neg (by omega), if_neg (by omega)]

theorem setDdr_ge (s : Regs) (port v : Nat) (h : 4 ≤ port) : setDdr s port v = s := by
  unfold setDdr
  rw [if_neg (by omega), if_neg (by omega), if_neg (by omega), if_neg (by omega)]

theorem portOf_ge (s : Regs) (q : Nat) (h : 4 ≤ q) : portOf s q = 0 := by
  unfold portOf
  rw [if_neg (by omega), if_neg (by omega), if_neg (by omega), if_neg (by omega)]

theorem ddrOf_ge (s : Regs) (q : Nat) (h : 4 ≤ q) : ddrOf s q = 0 := by
  unfold ddrOf
  rw [if_neg (by omega), if_neg (by omega), if_neg (by omega), if_neg (by omega)]

theorem pinOf_ge (s : Regs) (q : Nat) (h : 4 ≤ q) : pinOf s q = 0 := by
  unfold pinOf
  rw [if_neg (by omega), if_neg (by omega), if_neg (by omega), if_neg (by omega)]

theorem portOf_setPort (s : Regs) (port v : Nat) (hport : port < 4) :
    portOf (setPort s port v) port = v := by
  interval_cases port <;> rfl

theorem portOf_setPort_ne (s : Regs) (port q v : Nat) (h : q ≠ port) :
    portOf (setPort s port v) q = portOf s q := by
  rcases port_cases port with rfl | rfl | rfl | rfl | hc <;>
    rcases port_cases q with rfl | rfl | rfl | rfl | hq <;>
    first
    | rfl
    | exact absurd rfl h
    | rw [setPort_ge _ _ _ hc]
    | rw [portOf_ge _ _ hq, portOf_ge _ _ hq]

theorem ddrOf_setPort (s : Regs) (port q v : Nat) :
    ddrOf (setPort s port v) q = ddrOf s q := by
  rcases port_cases port with rfl | rfl | rfl | rfl | hc
  · rfl
  · rfl
  · rfl
  · rfl
  · rw [setPort_ge _ _ _ hc]

theorem pinOf_setPort (s : Regs) (port q v : Nat) :
    pinOf (setPort s port v) q = pinOf s q := by
  rcases port_cases port with rfl | rfl | rfl | rfl | hc
  · rfl
  · rfl
  · rfl
  · rfl
  · rw [setPort_ge _ _ _ hc]

theorem ddrOf_setDdr (s : Regs) (port v : Nat) (hport : port < 4) :
    ddrOf (setDdr s port v) port = v := by
  interval_cases port <;> rfl

theorem ddrOf_setDdr_ne (s : Regs) (port q v : Nat) (h : q ≠ port) :
    ddrOf (setDdr s port v) q = ddrOf s q := by
  rcases port_cases port with rfl | rfl | rfl | rfl | hc <;>
    rcases port_cases q with rfl | rfl | rfl | rfl | hq <;>
    first
    | rfl
    | exact absurd rfl h
    | rw [setDdr_ge _ _ _ hc]
    | rw [ddrOf_ge _ _ hq, ddrOf_ge _ _ hq]

theorem portOf_setDdr (s : Regs) (port q v : Nat) :
    portOf (setDdr s port v) q = portOf s q := by
  rcases port_cases port with rfl | rfl | rfl | rfl | hc
  · rfl
  · rfl
  · rfl
  · rfl
  · rw [setDdr_ge _ _ _ hc]

theorem pinOf_setDdr (s : Regs) (port q v : Nat) :
    pinOf (setDdr s port v) q = pinOf s q := by
  rcases port_cases port with rfl | rfl | rfl | rfl | hc
  · rfl
  · rfl
  · rfl
  · rfl
  · rw [setDdr_ge _ _ _ hc]

theorem setPort_self (s : Regs) (port : Nat) : setPort s port (portOf s port) = s := by
  rcases port_cases port with rfl | rfl | rfl | rfl | hc
  · rfl
  · rfl
  · rfl
  · rfl
  · rw [setPort_ge _ _ _ hc]

theorem setPort_setPort (s : Regs) (port v w : Nat) :
    setPort (setPort s port v) port w = setPort s port w := by
  rcases port_cases port with rfl | rfl | rfl | rfl | hc
  · rfl
  · rfl
  · rfl
  · rfl
  · rw [setPort_ge _ _ _ hc, setPort_ge _ _ _ hc, setPort_ge _ _ _ hc]

theorem dio_pin_port_check_ok (port pin : Nat) (hport : port < 4) (hpin : pin < 8) :
    dio_pin_port_check port pin = DIO_OK := by
  unfold dio_pin_port_check DIO_PIN_TOTAL DIO_PORT_TOTAL
  rw [if_neg (by omega), if_neg (by omega)]

theorem dio_write_valid (s : Regs) (port pin value : Nat)
    (hport : port < 4) (hpin : pin < 8) (hval : value < 2) :
    dio_write s port pin value = (DIO_OK, setPort s port (WRITE_BIT (portOf s port) pin value)) := by
  have hv : ¬ value ≥ DIO_PIN_VAL_TOTAL := by unfold DIO_PIN_VAL_TOTAL; omega
  unfold dio_write
  simp only [dio_pin_port_check_ok port pin hport hpin, hv, ne_eq, not_true_eq_false, if_false]
  interval_cases port <;> rfl

theorem dio_init_out_valid (s : Regs) (port pin : Nat) (hport : port < 4) (hpin : pin < 8) :
    dio_init s port pin DIO_OUT = (DIO_OK, setDdr s port (SET_BIT (ddrOf s port) pin)) := by
  unfold dio_init
  simp only [dio_pin_port_check_ok port pin hport hpin, ne_eq, not_true_eq_false, if_false]
  interval_cases port <;> rfl

theorem dio_init_in_valid (s : Regs) (port pin : Nat) (hport : port < 4) (hpin : pin < 8) :
    dio_init s port pin DIO_IN = (DIO_OK, setDdr s port (CLR_BIT (ddrOf s port) pin)) := by
  unfold dio_init
  simp only [dio_pin_port_check_ok port pin hport hpin, ne_eq, not_true_eq_false, if_false]
  interval_cases port <;> rfl

theorem dio_read_valid (s : Regs) (port pin val : Nat) (hport : port < 4) (hpin : pin < 8) :
    dio_read s port pin val = (DIO_OK, s, GET_BIT (pinOf s port) pin) := by
  unfold dio_read
  simp only [dio_pin_port_check_ok port pin hport hpin, ne_eq, not_true_eq_false, if_false]
  interval_cases port <;> rfl

theorem effMask_lt (mask : Nat) (h : mask < 256) : effMask mask < 256 := by
  unfold effMask
  split <;> omega

theorem effMask_ne_zero (mask : Nat) : effMask mask ≠ 0 := by
  unfold effMask
  split <;> omega

theorem norm_mask_eq (mask : Nat) :
    (if mask = DIO_MASK_ZERO then DIO_NO_MASK else mask) = effMask mask := rfl

theorem masked_testBit (m old d i : Nat) (hm : m < 256) (hi : i < 8) :
    (((INT_NOT m &&& old) ||| (m &&& d)) % 256).testBit i =
      if m.testBit i = true then d.testBit i else old.testBit i := by
  rw [testBit_mod_256, Nat.testBit_or, Nat.testBit_and, Nat.testBit_and,
    INT_NOT_testBit m i (by omega)]
  have h16 : i < 16 := by omega
  cases m.testBit i <;> simp [hi, h16]

theorem byte_not_testBit (m i : Nat) (hm : m < 256) :
    (255 - m).testBit i = (decide (i < 8) && !m.testBit i) := by
  have h : 255 - m = 2 ^ 8 - (m + 1) := by omega
  rw [h]
  exact Nat.testBit_two_pow_sub_succ (by simpa using hm) i

theorem masked_eq_byte (m old d : Nat) (hm : m < 256) :
    ((INT_NOT m &&& old) ||| (m &&& d)) % 256 = (((255 - m) &&& old) ||| (m &&& d)) % 256 := by
  apply Nat.eq_of_testBit_eq
  intro i
  rw [testBit_mod_256, testBit_mod_256, Nat.testBit_or, Nat.testBit_or, Nat.testBit_and,
    Nat.testBit_and, Nat.testBit_and, INT_NOT_testBit m i (by omega), byte_not_testBit m i hm]
  by_cases hi : i < 8
  · have h16 : i < 16 := by omega
    simp [hi, h16]
  · simp [hi]

theorem xor_mod_256 (old m : Nat) (ho : old < 256) (hm : m < 256) :
    (old ^^^ m) % 256 = old ^^^ m :=
  Nat.mod_eq_of_lt (Nat.xor_lt_two_pow (n := 8) ho hm)

theorem dio_port_init_valid (s : Regs) (port dir mask : Nat) (hport : port < 4) :
    dio_port_init s port dir mask =
      (DIO_OK, setDdr s port
        (((INT_NOT (effMask mask) &&& ddrOf s port) ||| (effMask mask &&& dir)) % 256)) := by
  unfold dio_port_init
  simp only [norm_mask_eq]
  interval_cases port <;> rfl

theorem dio_port_write_valid (s : Regs) (port value mask : Nat) (hport : port < 4)
    (hval : value = 0 ∨ value = 255) :
    dio_port_write s port value mask =
      (DIO_OK, setPort s port
        (((INT_NOT (effMask mask) &&& portOf s port) ||| (effMask mask &&& value)) % 256)) := by
  have hv : ¬ (value ≠ DIO_PORT_LOW ∧ value ≠ DIO_PORT_HIGH) := by
    unfold DIO_PORT_LOW DIO_PORT_HIGH
    omega
  unfold dio_port_write
  simp only [norm_mask_eq, hv, if_false]
  interval_cases port <;> rfl

theorem dio_port_toggle_valid (s : Regs) (port mask : Nat) (hport : port < 4) :
    dio_port_toggle s port mask =
      (DIO_OK, setPort s port ((portOf s port ^^^ effMask mask) % 256)) := by
  unfold dio_port_toggle
  simp only [norm_mask_eq]
  interval_cases port <;> rfl

theorem dio_port_toggle_invalid (s : Regs) (port mask : Nat) (hport : 4 ≤ port) :
    dio_port_toggle s port mask = (DIO_ERROR, s) := by
  unfold dio_port_toggle DIO_PORT_A DIO_PORT_B DIO_PORT_C DIO_PORT_D
  simp only [norm_mask_eq]
  rw [if_neg (by omega), if_neg (by omega), if_neg (by omega), if_neg (by omega)]

theorem wf_portOf_lt (s : Regs) (port : Nat) (h : s.wf) : portOf s port < 256 := by
  obtain ⟨_, h1, _, _, h2, _, _, h3, _, _, h4, _⟩ := h
  rcases port_cases port with rfl | rfl | rfl | rfl | hc
  · exact h1
  · exact h2
  · exact h3
  · exact h4
  · rw [portOf_ge _ _ hc]
    decide

/-! ## Pin-level properties -/

/-- C1: for every port in [0,3], pin in [0,7], value LOW or HIGH and every register file,
`dio_write` returns `DIO_OK`, afterwards bit `pin` of the output data register of that port
equals the value, and every other bit of that register is as before the call. -/
theorem C1_write_pin_sets_bit (s : Regs) (port pin value : Nat)
    (hport : port < DIO_PORT_TOTAL) (hpin : pin < DIO_PIN_TOTAL)
    (hval : value = DIO_PIN_LOW ∨ value = DIO_PIN_HIGH) :
    (dio_write s port pin value).1 = DIO_OK ∧
    ((portOf (dio_write s port pin value).2 port).testBit pin).toNat = value ∧
    ∀ i, i < 8 → i ≠ pin →
      (portOf (dio_write s port pin value).2 port).testBit i = (portOf s port).testBit i := by
  have hport4 : port < 4 := hport
  have hpin8 : pin < 8 := hpin
  have hv : value < 2 := by
    rcases hval with h | h <;> rw [h] <;> decide
  rw [dio_write_valid s port pin value hport4 hpin8 hv]
  refine ⟨rfl, ?_, ?_⟩
  · simp only [portOf_setPort s port _ hport4]
    rw [WRITE_BIT_testBit _ _ _ _ hpin8 hv hpin8]
    rcases hval with h | h <;> rw [h] <;> simp [DIO_PIN_LOW, DIO_PIN_HIGH]
  · intro i hi hne
    simp only [portOf_setPort s port _ hport4]
    rw [WRITE_BIT_testBit _ _ _ _ hpin8 hv hi, if_neg (fun h => hne h.symm)]

/-- C1, evaluated: writing HIGH to pin 6 of port B of the sample register file. -/
theorem C1_write_pin_sets_bit_witness :
    (dio_write sampleRegs 1 6 1).1 = DIO_OK ∧
    ((portOf (dio_write sampleRegs 1 6 1).2 1).testBit 6).toNat = 1 ∧
    ∀ i, i < 8 → i ≠ 6 →
      (portOf (dio_write sampleRegs 1 6 1).2 1).testBit i = (portOf sampleRegs 1).testBit i :=
  C1_write_pin_sets_bit sampleRegs 1 6 1 (by decide) (by decide) (Or.inr rfl)

/-- C2: for every port in [0,3], pin in [0,7], direction IN or OUT and every register
file, `dio_init` returns `DIO_OK` and afterwards bit `pin` of the direction register of
that port is 1 if and only if the direction is OUT. -/
theorem C2_init_pin_sets_direction (s : Regs) (port pin direction : Nat)
    (hport : port < DIO_PORT_TOTAL) (hpin : pin < DIO_PIN_TOTAL)
    (hdir : direction = DIO_IN ∨ direction = DIO_OUT) :
    (dio_init s port pin direction).1 = DIO_OK ∧
    ((ddrOf (dio_init s port pin direction).2 port).testBit pin = true ↔
      direction = DIO_OUT) := by
  have hport4 : port < 4 := hport
  have hpin8 : pin < 8 := hpin
  rcases hdir with h | h
  · rw [h, dio_init_in_valid s port pin hport4 hpin8]
    refine ⟨rfl, ?_⟩
    simp only [ddrOf_setDdr s port _ hport4]
    rw [CLR_BIT_testBit _ _ _ hpin8 hpin8]
    simp [DIO_IN, DIO_OUT]
  · rw [h, dio_init_out_valid s port pin hport4 hpin8]
    refine ⟨rfl, ?_⟩
    simp only [ddrOf_setDdr s port _ hport4]
    rw [SET_BIT_testBit _ _ _ hpin8]
    simp

/-- C2, evaluated: pin 5 of port C of the sample register file made an output. -/
theorem C2_init_pin_sets_direction_witness :
    (dio_init sampleRegs 2 5 1).1 = DIO_OK ∧
    ((ddrOf (dio_init sampleRegs 2 5 1).2 2).testBit 5 = true ↔ 1 = DIO_OUT) :=
  C2_init_pin_sets_direction sampleRegs 2 5 1 (by decide) (by decide) (Or.inr rfl)

/-! ## Port-level properties -/

/-- C3: for every port in [0,3], mask in [0,255], direction byte 0x00 or 0xFF and every
prior direction register value, `dio_port_init` returns `DIO_OK` and leaves the direction
register equal to `(~m & old) | (m & direction)` truncated to 8 bits, `m` being 0xFF for
mask 0 and the mask otherwise: each bit selected by `m` equals the direction bit, each bit
outside `m` is preserved. On port B, OUT with mask 0x0F turns 0b10101010 into 0b10101111. -/
theorem C3_init_port_masked (s : Regs) (port direction mask : Nat)
    (hport : port < DIO_PORT_TOTAL) (hmask : mask < 256)
    (hdir : direction = DIO_PORT_IN ∨ direction = DIO_PORT_OUT) :
    (dio_port_init s port direction mask).1 = DIO_OK ∧
    ddrOf (dio_port_init s port direction mask).2 port =
      (((255 - effMask mask) &&& ddrOf s port) ||| (effMask mask &&& direction)) % 256 ∧
    (∀ i, i < 8 → (effMask mask).testBit i = true →
      (ddrOf (dio_port_init s port direction mask).2 port).testBit i = direction.testBit i ∧
      ((ddrOf (dio_port_init s port direction mask).2 port).testBit i = true ↔
        direction = DIO_PORT_OUT)) ∧
    (∀ i, i < 8 → (effMask mask).testBit i = false →
      (ddrOf (dio_port_init s port direction mask).2 port).testBit i =
        (ddrOf s port).testBit i) ∧
    (ddrOf s DIO_PORT_B = 0b10101010 →
      ddrOf (dio_port_init s DIO_PORT_B DIO_PORT_OUT 0x0F).2 DIO_PORT_B = 0b10101111) := by
  have hport4 : port < 4 := hport
  have hm := effMask_lt mask hmask
  rw [dio_port_init_valid s port direction mask hport4]
  simp only [ddrOf_setDdr s port _ hport4]
  refine ⟨trivial, masked_eq_byte _ _ _ hm, ?_, ?_, ?_⟩
  · intro i hi hbit
    rw [masked_testBit _ _ _ _ hm hi, if_pos hbit]
    refine ⟨rfl, ?_⟩
    rcases hdir with h | h
    · rw [h]
      simp [DIO_PORT_IN, DIO_PORT_OUT]
    · rw [h]
      have h255 : DIO_PORT_OUT = 2 ^ 8 - 1 := by decide
      rw [h255, Nat.testBit_two_pow_sub_one]
      simp [hi]
  · intro i hi hbit
    rw [masked_testBit _ _ _ _ hm hi, if_neg (by simp [hbit])]
  · intro hold
    rw [dio_port_init_valid s DIO_PORT_B DIO_PORT_OUT 0x0F (by decide)]
    simp only [ddrOf_setDdr s DIO_PORT_B _ (by decide), hold]
    decide

/-- C3, evaluated: the scenario of port B, whose direction register is 0b10101010 in the
sample register file. -/
theorem C3_init_port_masked_witness :
    ddrOf (dio_port_init sampleRegs DIO_PORT_B DIO_PORT_OUT 0x0F).2 DIO_PORT_B = 0b10101111 :=
  (C3_init_port_masked sampleRegs 1 0xFF 0x0F (by decide) (by decide)
    (Or.inr rfl)).2.2.2.2 (by decide)

/-- C4: for every port in [0,3], value 0x00 or 0xFF, mask in [0,255] and every prior
output data register value, `dio_port_write` returns `DIO_OK` and leaves the output data
register equal to `(~m & old) | (m & value)` truncated to 8 bits, `m` being 0xFF for mask 0
and the mask otherwise; every bit not selected by `m` keeps its prior value. -/
theorem C4_write_port_masked (s : Regs) (port value mask : Nat)
    (hport : port < DIO_PORT_TOTAL) (hmask : mask < 256)
    (hval : value = DIO_PORT_LOW ∨ value = DIO_PORT_HIGH) :
    (dio_port_write s port value mask).1 = DIO_OK ∧
    portOf (dio_port_write s port value mask).2 port =
      (((255 - effMask mask) &&& portOf s port) ||| (effMask mask &&& value)) % 256 ∧
    (∀ i, i < 8 → (effMask mask).testBit i = false →
      (portOf (dio_port_write s port value mask).2 port).testBit i =
        (portOf s port).testBit i) := by
  have hport4 : port < 4 := hport
  have hm := effMask_lt mask hmask
  rw [dio_port_write_valid s port value mask hport4 hval]
  simp only [portOf_setPort s port _ hport4]
  refine ⟨trivial, masked_eq_byte _ _ _ hm, ?_⟩
  intro i hi hbit
  rw [masked_testBit _ _ _ _ hm hi, if_neg (by simp [hbit])]

/-- C4, evaluated: HIGH written to the low nibble of port A of the sample register file. -/
theorem C4_write_port_masked_witness :
    (dio_port_write sampleRegs 0 0xFF 0x0F).1 = DIO_OK ∧
    portOf (dio_port_write sampleRegs 0 0xFF 0x0F).2 0 =
      (((255 - effMask 0x0F) &&& portOf sampleRegs 0) ||| (effMask 0x0F &&& 0xFF)) % 256 ∧
    (∀ i, i < 8 → (effMask 0x0F).testBit i = false →
      (portOf (dio_port_write sampleRegs 0 0xFF 0x0F).2 0).testBit i =
        (portOf sampleRegs 0).testBit i) :=
  C4_write_port_masked sampleRegs 0 0xFF 0x0F (by decide) (by decide) (Or.inr rfl)

/-- C5: for every port in [0,3], mask in [0,255] and every prior output data register
value, `dio_port_toggle` returns `DIO_OK` and leaves the output data register equal to
`old XOR m`, `m` being 0xFF for mask 0 and the mask otherwise: every bit selected by `m` is
inverted and every bit outside `m` is unchanged. -/
theorem C5_toggle_port_xor (s : Regs) (port mask : Nat)
    (hport : port < DIO_PORT_TOTAL) (hmask : mask < 256) (hold : portOf s port < 256) :
    (dio_port_toggle s port mask).1 = DIO_OK ∧
    portOf (dio_port_toggle s port mask).2 port = portOf s port ^^^ effMask mask ∧
    (∀ i, (effMask mask).testBit i = true →
      (portOf (dio_port_toggle s port mask).2 port).testBit i =
        !(portOf s port).testBit i) ∧
    (∀ i, (effMask mask).testBit i = false →
      (portOf (dio_port_toggle s port mask).2 port).testBit i =
        (portOf s port).testBit i) := by
  have hport4 : port < 4 := hport
  have hm := effMask_lt mask hmask
  rw [dio_port_toggle_valid s port mask hport4]
  simp only [portOf_setPort s port _ hport4, xor_mod_256 _ _ hold hm]
  refine ⟨trivial, trivial, ?_, ?_⟩
  · intro i hbit
    rw [Nat.testBit_xor, hbit]
    simp
  · intro i hbit
    rw [Nat.testBit_xor, hbit]
    simp

/-- C5, evaluated: the top two pins of port D of the sample register file toggled. -/
theorem C5_toggle_port_xor_witness :
    (dio_port_toggle sampleRegs 3 0xC0).1 = DIO_OK ∧
    portOf (dio_port_toggle sampleRegs 3 0xC0).2 3 = portOf sampleRegs 3 ^^^ effMask 0xC0 ∧
    (∀ i, (effMask 0xC0).testBit i = true →
      (portOf (dio_port_toggle sampleRegs 3 0xC0).2 3).testBit i =
        !(portOf sampleRegs 3).testBit i) ∧
    (∀ i, (effMask 0xC0).testBit i = false →
      (portOf (dio_port_toggle sampleRegs 3 0xC0).2 3).testBit i =
        (portOf sampleRegs 3).testBit i) :=
  C5_toggle_port_xor sampleRegs 3 0xC0 (by decide) (by decide) (by decide)

/-- C6: for every port selector, every mask in [0,255] (the sentinel 0 included) and
every register file, two `dio_port_toggle` calls in succession leave the output data
register, and the whole register file, as they were. -/
theorem C6_toggle_port_twice (s : Regs) (port mask : Nat) (hmask : mask < 256)
    (hs : s.wf) :
    (dio_port_toggle (dio_port_toggle s port mask).2 port mask).2 = s ∧
    portOf (dio_port_toggle (dio_port_toggle s port mask).2 port mask).2 port =
      portOf s port := by
  have key : (dio_port_toggle (dio_port_toggle s port mask).2 port mask).2 = s := by
    by_cases hport : port < 4
    · have hm := effMask_lt mask hmask
      have hold := wf_portOf_lt s port hs
      rw [dio_port_toggle_valid s port mask hport, dio_port_toggle_valid _ port mask hport]
      simp only [portOf_setPort s port _ hport, setPort_setPort, xor_mod_256 _ _ hold hm]
      rw [Nat.xor_assoc, Nat.xor_self, Nat.xor_zero, Nat.mod_eq_of_lt hold, setPort_self]
    · rw [dio_port_toggle_invalid s port mask (by omega),
        dio_port_toggle_invalid s port mask (by omega)]
  exact ⟨key, by rw [key]⟩

/-- C6, evaluated: port B of the sample register file toggled twice with the sentinel
mask 0. -/
theorem C6_toggle_port_twice_witness :
    (dio_port_toggle (dio_port_toggle sampleRegs 1 0).2 1 0).2 = sampleRegs ∧
    portOf (dio_port_toggle (dio_port_toggle sampleRegs 1 0).2 1 0).2 1 =
      portOf sampleRegs 1 :=
  C6_toggle_port_twice sampleRegs 1 0 (by decide) (by decide)

/-! ## Toggling a pin -/

theorem dio_toggle_valid (s : Regs) (port pin : Nat) (hport : port < 4) (hpin : pin < 8) :
    dio_toggle s port pin =
      (DIO_OK, setPort s port (WRITE_BIT (portOf s port) pin
        (if GET_BIT (pinOf s port) pin = DIO_PIN_LOW then DIO_PIN_HIGH else DIO_PIN_LOW))) := by
  have hv : (if GET_BIT (pinOf s port) pin = DIO_PIN_LOW then DIO_PIN_HIGH else DIO_PIN_LOW)
      < 2 := by
    unfold DIO_PIN_HIGH DIO_PIN_LOW
    split <;> omega
  unfold dio_toggle
  simp only [dio_pin_port_check_ok port pin hport hpin, dio_read_valid s port pin _ hport hpin,
    ne_eq, not_true_eq_false, if_false, if_true]
  rw [dio_write_valid s port pin _ hport hpin hv]

theorem toggle_value_eq (b : Bool) :
    (if b.toNat = DIO_PIN_LOW then DIO_PIN_HIGH else DIO_PIN_LOW) = (!b).toNat := by
  cases b <;> rfl

/-- Bit `pin` of the output data register after `dio_toggle` on valid selectors is the
complement of bit `pin` of the input data register; the other bits are kept. -/
theorem dio_toggle_testBit (s : Regs) (port pin i : Nat) (hport : port < 4) (hpin : pin < 8)
    (hi : i < 8) :
    (portOf (dio_toggle s port pin).2 port).testBit i =
      if pin = i then !(pinOf s port).testBit pin else (portOf s port).testBit i := by
  rw [dio_toggle_valid s port pin hport hpin]
  simp only [portOf_setPort s port _ hport]
  rw [GET_BIT_eq, toggle_value_eq]
  have hv : (!(pinOf s port).testBit pin).toNat < 2 := by
    cases (pinOf s port).testBit pin <;> decide
  rw [WRITE_BIT_testBit _ _ _ _ hpin hv hi]
  cases (pinOf s port).testBit pin <;> rfl

theorem pinOf_dio_toggle (s : Regs) (port pin q : Nat) (hport : port < 4) (hpin : pin < 8) :
    pinOf (dio_toggle s port pin).2 q = pinOf s q := by
  rw [dio_toggle_valid s port pin hport hpin]
  exact pinOf_setPort _ _ _ _

theorem ddrOf_dio_toggle (s : Regs) (port pin q : Nat) (hport : port < 4) (hpin : pin < 8) :
    ddrOf (dio_toggle s port pin).2 q = ddrOf s q := by
  rw [dio_toggle_valid s port pin hport hpin]
  exact ddrOf_setPort _ _ _ _

/-! ## Read-back of the pins -/

theorem pinLevel_testBit (ddr port pin i : Nat) (hi : i < 8) :
    (pinLevel ddr port pin).testBit i =
      if ddr.testBit i = true then port.testBit i else pin.testBit i := by
  unfold pinLevel
  rw [testBit_mod_256, Nat.testBit_or, Nat.testBit_and, Nat.testBit_and,
    byte_not_testBit (ddr % 256) i (Nat.mod_lt _ (by norm_num)), testBit_mod_256]
  cases ddr.testBit i <;> simp [hi]

theorem ddrOf_readBack (s : Regs) (q : Nat) : ddrOf (readBack s) q = ddrOf s q := rfl

theorem portOf_readBack (s : Regs) (q : Nat) : portOf (readBack s) q = portOf s q := rfl

theorem pinOf_readBack (s : Regs) (port : Nat) (hport : port < 4) :
    pinOf (readBack s) port = pinLevel (ddrOf s port) (portOf s port) (pinOf s port) := by
  interval_cases port <;> rfl

theorem pinOf_readBack_testBit (s : Regs) (port i : Nat) (hport : port < 4) (hi : i < 8) :
    (pinOf (readBack s) port).testBit i =
      if (ddrOf s port).testBit i = true then (portOf s port).testBit i
      else (pinOf s port).testBit i := by
  rw [pinOf_readBack s port hport, pinLevel_testBit _ _ _ i hi]

/-- Bit `pin` of the output data register after a read-back and a `dio_toggle`. -/
theorem dio_toggle_readBack_testBit (s : Regs) (port pin : Nat) (hport : port < 4)
    (hpin : pin < 8) :
    (portOf (dio_toggle (readBack s) port pin).2 port).testBit pin =
      !(if (ddrOf s port).testBit pin = true then (portOf s port).testBit pin
        else (pinOf s port).testBit pin) := by
  rw [dio_toggle_testBit (readBack s) port pin pin hport hpin hpin, if_pos rfl,
    pinOf_readBack_testBit s port pin hport hpin]

/-- Bit `pin` of the output data register after two `dio_toggle` calls, each preceded by a
read-back: the original bit on an output pin, the complement of the input bit on an input
pin. -/
theorem dio_toggle_twice_readBack_testBit (s : Regs) (port pin : Nat) (hport : port < 4)
    (hpin : pin < 8) :
    (portOf (dio_toggle (readBack (dio_toggle (readBack s) port pin).2) port pin).2
        port).testBit pin =
      if (ddrOf s port).testBit pin = true then (portOf s port).testBit pin
      else !(pinOf s port).testBit pin := by
  rw [dio_toggle_readBack_testBit _ port pin hport hpin,
    ddrOf_dio_toggle (readBack s) port pin port hport hpin, ddrOf_readBack,
    pinOf_dio_toggle (readBack s) port pin port hport hpin,
    dio_toggle_readBack_testBit s port pin hport hpin,
    pinOf_readBack_testBit s port pin hport hpin]
  by_cases hd : (ddrOf s port).testBit pin = true
  · simp only [if_pos hd]
    simp
  · simp only [if_neg hd]

/-- C7, as stated, fails: pin 5 of port A is an input pin in the sample register file
(direction bit 0) held high (input bit 1) with output bit 1; the first `dio_toggle` clears
the output bit and the second one, reading the same input level, clears it again. This is
so with the register file left as it is between the calls and also with the read-back of
the pins before each call. -/
theorem C7_toggle_pin_twice_counterexample :
    (ddrOf sampleRegs 0).testBit 5 = false ∧
    (pinOf sampleRegs 0).testBit 5 = true ∧
    (portOf (dio_toggle (dio_toggle sampleRegs 0 5).2 0 5).2 0).testBit 5 ≠
      (portOf sampleRegs 0).testBit 5 ∧
    (portOf (dio_toggle (readBack (dio_toggle (readBack sampleRegs) 0 5).2) 0 5).2 0).testBit 5 ≠
      (portOf sampleRegs 0).testBit 5 := by
  decide

/-- C7, amended: `dio_toggle` restores the output bit on the second call only while the
input data register follows the output data register. For every port in [0,3] and pin in
[0,7]: (1) if bit `pin` of the input register equals bit `pin` of the output register
before each of the two calls, the output bit after the second call is the one before the
first; (2) with the input register left as it is between the calls, both calls return
`DIO_OK` and write the same complement of the input bit, so the output bit ends as after
one call and equals its original value exactly when it differed from the input bit;
(3) with the read-back of the pins before each call, two calls on a pin configured as
output restore the output bit, and two calls on a pin configured as input leave it at the
complement of the input bit. -/
theorem C7_toggle_pin_twice_amended (s s1 : Regs) (port pin : Nat)
    (hport : port < DIO_PORT_TOTAL) (hpin : pin < DIO_PIN_TOTAL)
    (hfollow0 : (pinOf s port).testBit pin = (portOf s port).testBit pin)
    (hout1 : portOf s1 port = portOf (dio_toggle s port pin).2 port)
    (hfollow1 : (pinOf s1 port).testBit pin = (portOf s1 port).testBit pin) :
    (portOf (dio_toggle s1 port pin).2 port).testBit pin = (portOf s port).testBit pin ∧
    (∀ t : Regs,
      (dio_toggle t port pin).1 = DIO_OK ∧
      (dio_toggle (dio_toggle t port pin).2 port pin).1 = DIO_OK ∧
      (portOf (dio_toggle (dio_toggle t port pin).2 port pin).2 port).testBit pin =
        (portOf (dio_toggle t port pin).2 port).testBit pin ∧
      ((portOf (dio_toggle (dio_toggle t port pin).2 port pin).2 port).testBit pin =
          (portOf t port).testBit pin ↔
        (portOf t port).testBit pin ≠ (pinOf t port).testBit pin)) ∧
    (∀ t : Regs,
      (dio_toggle (readBack t) port pin).1 = DIO_OK ∧
      (dio_toggle (readBack (dio_toggle (readBack t) port pin).2) port pin).1 = DIO_OK ∧
      ((ddrOf t port).testBit pin = true →
        (portOf (dio_toggle (readBack (dio_toggle (readBack t) port pin).2) port pin).2
          port).testBit pin = (portOf t port).testBit pin) ∧
      ((ddrOf t port).testBit pin = false →
        (portOf (dio_toggle (readBack (dio_toggle (readBack t) port pin).2) port pin).2
          port).testBit pin = !(pinOf t port).testBit pin)) := by
  have hport4 : port < 4 := hport
  have hpin8 : pin < 8 := hpin
  refine ⟨?_, ?_, ?_⟩
  · rw [dio_toggle_testBit s1 port pin pin hport4 hpin8 hpin8, if_pos rfl, hfollow1, hout1,
      dio_toggle_testBit s port pin pin hport4 hpin8 hpin8, if_pos rfl, hfollow0]
    simp
  · intro t
    have h2 : (portOf (dio_toggle (dio_toggle t port pin).2 port pin).2 port).testBit pin =
        !(pinOf t port).testBit pin := by
      rw [dio_toggle_testBit _ port pin pin hport4 hpin8 hpin8, if_pos rfl,
        pinOf_dio_toggle t port pin port hport4 hpin8]
    have h1 : (portOf (dio_toggle t port pin).2 port).testBit pin =
        !(pinOf t port).testBit pin := by
      rw [dio_toggle_testBit _ port pin pin hport4 hpin8 hpin8, if_pos rfl]
    refine ⟨?_, ?_, ?_, ?_⟩
    · rw [dio_toggle_valid t port pin hport4 hpin8]
    · rw [dio_toggle_valid _ port pin hport4 hpin8]
    · rw [h2, h1]
    · rw [h2]
      cases (portOf t port).testBit pin <;> cases (pinOf t port).testBit pin <;> simp
  · intro t
    refine ⟨?_, ?_, ?_, ?_⟩
    · rw [dio_toggle_valid _ port pin hport4 hpin8]
    · rw [dio_toggle_valid _ port pin hport4 hpin8]
    · intro hd
      rw [dio_toggle_twice_readBack_testBit t port pin hport4 hpin8, if_pos hd]
    · intro hd
      rw [dio_toggle_twice_readBack_testBit t port pin hport4 hpin8, if_neg (by simp [hd])]

/-- C7 amended, evaluated: pin 0 of port D of the sample register file, an output pin
whose input bit is 1; `s` has the output bit at 1 as well, `s1` is the register file after
the first call with the input bit following the cleared output bit; with the read-back,
two calls on that pin of `s` restore the output bit. -/
theorem C7_toggle_pin_twice_amended_witness :
    (portOf (dio_toggle { sampleRegs with DIO_U8_PORT_D_REG := 0x80, DIO_U8_PIN_D_REG := 0x00 }
        3 0).2 3).testBit 0 =
      (portOf { sampleRegs with DIO_U8_PORT_D_REG := 0x81 } 3).testBit 0 ∧
    (portOf (dio_toggle (readBack (dio_toggle
        (readBack { sampleRegs with DIO_U8_PORT_D_REG := 0x81 }) 3 0).2) 3 0).2 3).testBit 0 =
      (portOf { sampleRegs with DIO_U8_PORT_D_REG := 0x81 } 3).testBit 0 :=
  ⟨(C7_toggle_pin_twice_amended { sampleRegs with DIO_U8_PORT_D_REG := 0x81 }
      { sampleRegs with DIO_U8_PORT_D_REG := 0x80, DIO_U8_PIN_D_REG := 0x00 } 3 0
      (by decide) (by decide) (by decide) (by decide) (by decide)).1,
    ((C7_toggle_pin_twice_amended { sampleRegs with DIO_U8_PORT_D_REG := 0x81 }
      { sampleRegs with DIO_U8_PORT_D_REG := 0x80, DIO_U8_PIN_D_REG := 0x00 } 3 0
      (by decide) (by decide) (by decide) (by decide) (by decide)).2.2
        { sampleRegs with DIO_U8_PORT_D_REG := 0x81 }).2.2.1 (by decide)⟩

/-! ## Reading a pin, and the complement written by a toggle -/

/-- C8: for every port in [0,3], pin in [0,7] and every register file, `dio_read` returns
`DIO_OK` and delivers exactly bit `pin` of the input data register of that port, as 0 or 1,
whatever the output data registers and direction registers hold. -/
theorem C8_read_pin_input_register (s : Regs) (port pin val : Nat)
    (hport : port < DIO_PORT_TOTAL) (hpin : pin < DIO_PIN_TOTAL) :
    (dio_read s port pin val).1 = DIO_OK ∧
    (dio_read s port pin val).2.2 = ((pinOf s port).testBit pin).toNat ∧
    ((dio_read s port pin val).2.2 = DIO_PIN_LOW ∨
      (dio_read s port pin val).2.2 = DIO_PIN_HIGH) ∧
    (∀ t : Regs, pinOf t port = pinOf s port →
      (dio_read t port pin val).2.2 = (dio_read s port pin val).2.2) := by
  have hport4 : port < 4 := hport
  have hpin8 : pin < 8 := hpin
  rw [dio_read_valid s port pin val hport4 hpin8]
  refine ⟨rfl, GET_BIT_eq _ _, ?_, ?_⟩
  · show GET_BIT (pinOf s port) pin = DIO_PIN_LOW ∨ GET_BIT (pinOf s port) pin = DIO_PIN_HIGH
    rw [GET_BIT_eq]
    cases (pinOf s port).testBit pin
    · exact Or.inl rfl
    · exact Or.inr rfl
  · intro t ht
    rw [dio_read_valid t port pin val hport4 hpin8, ht]

/-- C8, evaluated: pin 4 of port A of the sample register file. -/
theorem C8_read_pin_input_register_witness :
    (dio_read sampleRegs 0 4 0).1 = DIO_OK ∧
    (dio_read sampleRegs 0 4 0).2.2 = ((pinOf sampleRegs 0).testBit 4).toNat ∧
    ((dio_read sampleRegs 0 4 0).2.2 = DIO_PIN_LOW ∨
      (dio_read sampleRegs 0 4 0).2.2 = DIO_PIN_HIGH) ∧
    (∀ t : Regs, pinOf t 0 = pinOf sampleRegs 0 →
      (dio_read t 0 4 0).2.2 = (dio_read sampleRegs 0 4 0).2.2) :=
  C8_read_pin_input_register sampleRegs 0 4 0 (by decide) (by decide)

/-- C9: for every port in [0,3], pin in [0,7] and every register file, `dio_toggle`
returns `DIO_OK` and leaves bit `pin` of the output data register of that port equal to
the logical complement of the value `dio_read` delivers on the register file before the
call; every other bit of that register is unchanged. -/
theorem C9_toggle_pin_writes_complement (s : Regs) (port pin val : Nat)
    (hport : port < DIO_PORT_TOTAL) (hpin : pin < DIO_PIN_TOTAL) :
    (dio_toggle s port pin).1 = DIO_OK ∧
    ((portOf (dio_toggle s port pin).2 port).testBit pin).toNat =
      1 - (dio_read s port pin val).2.2 ∧
    (((portOf (dio_toggle s port pin).2 port).testBit pin).toNat = DIO_PIN_HIGH ↔
      (dio_read s port pin val).2.2 = DIO_PIN_LOW) ∧
    (∀ i, i < 8 → i ≠ pin →
      (portOf (dio_toggle s port pin).2 port).testBit i = (portOf s port).testBit i) := by
  have hport4 : port < 4 := hport
  have hpin8 : pin < 8 := hpin
  have hbit := dio_toggle_testBit s port pin pin hport4 hpin8 hpin8
  rw [if_pos rfl] at hbit
  rw [hbit, dio_read_valid s port pin val hport4 hpin8]
  simp only [GET_BIT_eq]
  refine ⟨?_, ?_, ?_, ?_⟩
  · rw [dio_toggle_valid s port pin hport4 hpin8]
  · cases (pinOf s port).testBit pin <;> rfl
  · cases (pinOf s port).testBit pin <;> decide
  · intro i hi hne
    rw [dio_toggle_testBit s port pin i hport4 hpin8 hi, if_neg (fun h => hne h.symm)]

/-- C9, evaluated: pin 7 of port C of the sample register file. -/
theorem C9_toggle_pin_writes_complement_witness :
    (dio_toggle sampleRegs 2 7).1 = DIO_OK ∧
    ((portOf (dio_toggle sampleRegs 2 7).2 2).testBit 7).toNat =
      1 - (dio_read sampleRegs 2 7 0).2.2 ∧
    (((portOf (dio_toggle sampleRegs 2 7).2 2).testBit 7).toNat = DIO_PIN_HIGH ↔
      (dio_read sampleRegs 2 7 0).2.2 = DIO_PIN_LOW) ∧
    (∀ i, i < 8 → i ≠ 7 →
      (portOf (dio_toggle sampleRegs 2 7).2 2).testBit i = (portOf sampleRegs 2).testBit i) :=
  C9_toggle_pin_writes_complement sampleRegs 2 7 0 (by decide) (by decide)

/-! ## Rejected selectors -/

theorem dio_pin_port_check_pin (port pin : Nat) (hpin : 8 ≤ pin) :
    dio_pin_port_check port pin = DIO_WRONG_PIN := by
  unfold dio_pin_port_check DIO_PIN_TOTAL
  rw [if_pos hpin]

/-- C10: for each pin-level operation (`dio_init`, `dio_read`, `dio_write`, `dio_toggle`),
for every port selector, valid or not, and every other argument, a call with pin 8
(`DIO_PIN_TOTAL`) returns `DIO_WRONG_PIN` and leaves every register (and the caller's
read buffer) as it was. -/
theorem C10_pin_total_rejected (s : Regs) (port direction value val : Nat) :
    dio_init s port DIO_PIN_TOTAL direction = (DIO_WRONG_PIN, s) ∧
    dio_read s port DIO_PIN_TOTAL val = (DIO_WRONG_PIN, s, val) ∧
    dio_write s port DIO_PIN_TOTAL value = (DIO_WRONG_PIN, s) ∧
    dio_toggle s port DIO_PIN_TOTAL = (DIO_WRONG_PIN, s) := by
  have hc : dio_pin_port_check port DIO_PIN_TOTAL = DIO_WRONG_PIN :=
    dio_pin_port_check_pin port DIO_PIN_TOTAL (Nat.le_refl 8)
  refine ⟨?_, ?_, ?_, ?_⟩
  · unfold dio_init
    simp only [hc]
    rfl
  · unfold dio_read
    simp only [hc]
    rfl
  · unfold dio_write
    simp only [hc]
    rfl
  · unfold dio_toggle
    simp only [hc]
    rfl

/-! ## Outcome of every call: the failing branches -/

theorem dio_pin_port_check_port (port pin : Nat) (hpin : pin < 8) (hport : 4 ≤ port) :
    dio_pin_port_check port pin = DIO_WRONG_PORT := by
  unfold dio_pin_port_check DIO_PIN_TOTAL DIO_PORT_TOTAL
  rw [if_neg (by omega), if_pos hport]

theorem dio_init_wrong_pin (s : Regs) (port pin direction : Nat) (hpin : 8 ≤ pin) :
    dio_init s port pin direction = (DIO_WRONG_PIN, s) := by
  unfold dio_init
  simp only [dio_pin_port_check_pin port pin hpin]
  rfl

theorem dio_init_wrong_port (s : Regs) (port pin direction : Nat) (hpin : pin < 8)
    (hport : 4 ≤ port) : dio_init s port pin direction = (DIO_WRONG_PORT, s) := by
  unfold dio_init
  simp only [dio_pin_port_check_port port pin hpin hport]
  rfl

theorem dio_init_wrong_dir (s : Regs) (port pin direction : Nat) (hport : port < 4)
    (hpin : pin < 8) (h0 : direction ≠ DIO_IN) (h1 : direction ≠ DIO_OUT) :
    dio_init s port pin direction = (DIO_WRONG_PIN_VAL, s) := by
  unfold dio_init
  simp only [dio_pin_port_check_ok port pin hport hpin, ne_eq, not_true_eq_false, if_false,
    if_neg h0, if_neg h1]
  interval_cases port <;> rfl

theorem dio_read_wrong_pin (s : Regs) (port pin val : Nat) (hpin : 8 ≤ pin) :
    dio_read s port pin val = (DIO_WRONG_PIN, s, val) := by
  unfold dio_read
  simp only [dio_pin_port_check_pin port pin hpin]
  rfl

theorem dio_read_wrong_port (s : Regs) (port pin val : Nat) (hpin : pin < 8)
    (hport : 4 ≤ port) : dio_read s port pin val = (DIO_WRONG_PORT, s, val) := by
  unfold dio_read
  simp only [dio_pin_port_check_port port pin hpin hport]
  rfl

theorem dio_write_wrong_pin (s : Regs) (port pin value : Nat) (hpin : 8 ≤ pin) :
    dio_write s port pin value = (DIO_WRONG_PIN, s) := by
  unfold dio_write
  simp only [dio_pin_port_check_pin port pin hpin]
  rfl

theorem dio_write_wrong_port (s : Regs) (port pin value : Nat) (hpin : pin < 8)
    (hport : 4 ≤ port) : dio_write s port pin value = (DIO_WRONG_PORT, s) := by
  unfold dio_write
  simp only [dio_pin_port_check_port port pin hpin hport]
  rfl

theorem dio_write_wrong_value (s : Regs) (port pin value : Nat) (hport : port < 4)
    (hpin : pin < 8) (hval : 2 ≤ value) :
    dio_write s port pin value = (DIO_WRONG_PIN_VAL, s) := by
  have hv : value ≥ DIO_PIN_VAL_TOTAL := hval
  unfold dio_write
  simp only [dio_pin_port_check_ok port pin hport hpin, ne_eq, not_true_eq_false, if_false,
    if_pos hv]

theorem dio_toggle_wrong_pin (s : Regs) (port pin : Nat) (hpin : 8 ≤ pin) :
    dio_toggle s port pin = (DIO_WRONG_PIN, s) := by
  unfold dio_toggle
  simp only [dio_pin_port_check_pin port pin hpin]
  rfl

theorem dio_toggle_wrong_port (s : Regs) (port pin : Nat) (hpin : pin < 8)
    (hport : 4 ≤ port) : dio_toggle s port pin = (DIO_WRONG_PORT, s) := by
  unfold dio_toggle
  simp only [dio_pin_port_check_port port pin hpin hport]
  rfl

theorem dio_port_init_invalid (s : Regs) (port direction mask : Nat) (hport : 4 ≤ port) :
    dio_port_init s port direction mask = (DIO_WRONG_PORT, s) := by
  unfold dio_port_init DIO_PORT_A DIO_PORT_B DIO_PORT_C DIO_PORT_D
  simp only [norm_mask_eq]
  rw [if_neg (by omega), if_neg (by omega), if_neg (by omega), if_neg (by omega)]

theorem dio_port_write_wrong_value (s : Regs) (port value mask : Nat)
    (h0 : value ≠ DIO_PORT_LOW) (h1 : value ≠ DIO_PORT_HIGH) :
    dio_port_write s port value mask = (DIO_WRONG_PORT_VAL, s) := by
  unfold dio_port_write
  simp only [norm_mask_eq]
  rw [if_pos ⟨h0, h1⟩]

theorem dio_port_write_invalid (s : Regs) (port value mask : Nat) (hport : 4 ≤ port)
    (hval : value = 0 ∨ value = 255) :
    dio_port_write s port value mask = (DIO_ERROR, s) := by
  have hv : ¬ (value ≠ DIO_PORT_LOW ∧ value ≠ DIO_PORT_HIGH) := by
    unfold DIO_PORT_LOW DIO_PORT_HIGH
    omega
  unfold dio_port_write DIO_PORT_A DIO_PORT_B DIO_PORT_C DIO_PORT_D
  simp only [norm_mask_eq]
  rw [if_neg hv, if_neg (by omega), if_neg (by omega), if_neg (by omega), if_neg (by omega)]

/-! ## Port selector 4 and rejected port values -/

/-- C11, as stated, fails: with port 4 (`DIO_PORT_TOTAL`) `dio_port_toggle` and
`dio_port_write` return the generic `DIO_ERROR`, and `dio_init` with pin 8 returns
`DIO_WRONG_PIN`, because the pin is checked before the port. -/
theorem C11_port_total_counterexample :
    (dio_port_toggle sampleRegs DIO_PORT_TOTAL 0x0F).1 ≠ DIO_WRONG_PORT ∧
    (dio_port_write sampleRegs DIO_PORT_TOTAL DIO_PORT_HIGH 0x0F).1 ≠ DIO_WRONG_PORT ∧
    (dio_init sampleRegs DIO_PORT_TOTAL DIO_PIN_TOTAL DIO_OUT).1 ≠ DIO_WRONG_PORT := by
  decide

/-- C11, amended: a call with port 4 (`DIO_PORT_TOTAL`) never changes a register and never
returns `DIO_OK`. The four pin-level operations return `DIO_WRONG_PORT` for a pin in [0,7]
and `DIO_WRONG_PIN` for a pin of 8 or more, for every other argument; `dio_port_init`
returns `DIO_WRONG_PORT` for every direction and mask; `dio_port_toggle` returns
`DIO_ERROR` for every mask; `dio_port_write` returns `DIO_ERROR` for the values 0x00 and
0xFF and `DIO_WRONG_PORT_VAL` for any other value. -/
theorem C11_port_total_amended (s : Regs) (pin direction value val portVal mask : Nat) :
    dio_init s DIO_PORT_TOTAL pin direction =
      (if pin ≥ 8 then DIO_WRONG_PIN else DIO_WRONG_PORT, s) ∧
    dio_read s DIO_PORT_TOTAL pin val =
      (if pin ≥ 8 then DIO_WRONG_PIN else DIO_WRONG_PORT, s, val) ∧
    dio_write s DIO_PORT_TOTAL pin value =
      (if pin ≥ 8 then DIO_WRONG_PIN else DIO_WRONG_PORT, s) ∧
    dio_toggle s DIO_PORT_TOTAL pin =
      (if pin ≥ 8 then DIO_WRONG_PIN else DIO_WRONG_PORT, s) ∧
    dio_port_init s DIO_PORT_TOTAL direction mask = (DIO_WRONG_PORT, s) ∧
    dio_port_toggle s DIO_PORT_TOTAL mask = (DIO_ERROR, s) ∧
    dio_port_write s DIO_PORT_TOTAL portVal mask =
      (if portVal = DIO_PORT_LOW ∨ portVal = DIO_PORT_HIGH then DIO_ERROR
        else DIO_WRONG_PORT_VAL, s) ∧
    ((dio_init s DIO_PORT_TOTAL pin direction).1 ≠ DIO_OK ∧
      (dio_read s DIO_PORT_TOTAL pin val).1 ≠ DIO_OK ∧
      (dio_write s DIO_PORT_TOTAL pin value).1 ≠ DIO_OK ∧
      (dio_toggle s DIO_PORT_TOTAL pin).1 ≠ DIO_OK ∧
      (dio_port_init s DIO_PORT_TOTAL direction mask).1 ≠ DIO_OK ∧
      (dio_port_toggle s DIO_PORT_TOTAL mask).1 ≠ DIO_OK ∧
      (dio_port_write s DIO_PORT_TOTAL portVal mask).1 ≠ DIO_OK) := by
  have h4 : 4 ≤ DIO_PORT_TOTAL := Nat.le_refl 4
  have hpinCode : (if pin ≥ 8 then DIO_WRONG_PIN else DIO_WRONG_PORT) ≠ DIO_OK := by
    by_cases hpin : pin ≥ 8
    · rw [if_pos hpin]
      decide
    · rw [if_neg hpin]
      decide
  have hvalCode : (if portVal = DIO_PORT_LOW ∨ portVal = DIO_PORT_HIGH then DIO_ERROR
      else DIO_WRONG_PORT_VAL) ≠ DIO_OK := by
    by_cases hv : portVal = DIO_PORT_LOW ∨ portVal = DIO_PORT_HIGH
    · rw [if_pos hv]
      decide
    · rw [if_neg hv]
      decide
  have e1 : dio_init s DIO_PORT_TOTAL pin direction =
      (if pin ≥ 8 then DIO_WRONG_PIN else DIO_WRONG_PORT, s) := by
    by_cases hpin : pin ≥ 8
    · rw [if_pos hpin, dio_init_wrong_pin s _ pin direction hpin]
    · rw [if_neg hpin, dio_init_wrong_port s _ pin direction (by omega) h4]
  have e2 : dio_read s DIO_PORT_TOTAL pin val =
      (if pin ≥ 8 then DIO_WRONG_PIN else DIO_WRONG_PORT, s, val) := by
    by_cases hpin : pin ≥ 8
    · rw [if_pos hpin, dio_read_wrong_pin s _ pin val hpin]
    · rw [if_neg hpin, dio_read_wrong_port s _ pin val (by omega) h4]
  have e3 : dio_write s DIO_PORT_TOTAL pin value =
      (if pin ≥ 8 then DIO_WRONG_PIN else DIO_WRONG_PORT, s) := by
    by_cases hpin : pin ≥ 8
    · rw [if_pos hpin, dio_write_wrong_pin s _ pin value hpin]
    · rw [if_neg hpin, dio_write_wrong_port s _ pin value (by omega) h4]
  have e4 : dio_toggle s DIO_PORT_TOTAL pin =
      (if pin ≥ 8 then DIO_WRONG_PIN else DIO_WRONG_PORT, s) := by
    by_cases hpin : pin ≥ 8
    · rw [if_pos hpin, dio_toggle_wrong_pin s _ pin hpin]
    · rw [if_neg hpin, dio_toggle_wrong_port s _ pin (by omega) h4]
  have e5 := dio_port_init_invalid s DIO_PORT_TOTAL direction mask h4
  have e6 := dio_port_toggle_invalid s DIO_PORT_TOTAL mask h4
  have e7 : dio_port_write s DIO_PORT_TOTAL portVal mask =
      (if portVal = DIO_PORT_LOW ∨ portVal = DIO_PORT_HIGH then DIO_ERROR
        else DIO_WRONG_PORT_VAL, s) := by
    by_cases hv : portVal = DIO_PORT_LOW ∨ portVal = DIO_PORT_HIGH
    · rw [if_pos hv, dio_port_write_invalid s _ portVal mask h4 hv]
    · rw [if_neg hv, dio_port_write_wrong_value s _ portVal mask (fun h => hv (Or.inl h))
        (fun h => hv (Or.inr h))]
  refine ⟨e1, e2, e3, e4, e5, e6, e7, ?_, ?_, ?_, ?_, ?_, ?_, ?_⟩
  · rw [e1]
    exact hpinCode
  · rw [e2]
    exact hpinCode
  · rw [e3]
    exact hpinCode
  · rw [e4]
    exact hpinCode
  · rw [e5]
    show DIO_WRONG_PORT ≠ DIO_OK
    decide
  · rw [e6]
    show DIO_ERROR ≠ DIO_OK
    decide
  · rw [e7]
    exact hvalCode

/-- C11 amended, evaluated on the sample register file: port 4 with pin 2 and with pin 8,
direction OUT, value HIGH, port value 0xFF and 0x55, mask 0x0F. -/
theorem C11_port_total_amended_witness :
    dio_init sampleRegs 4 2 1 = (DIO_WRONG_PORT, sampleRegs) ∧
    dio_read sampleRegs 4 2 0 = (DIO_WRONG_PORT, sampleRegs, 0) ∧
    dio_write sampleRegs 4 2 1 = (DIO_WRONG_PORT, sampleRegs) ∧
    dio_toggle sampleRegs 4 2 = (DIO_WRONG_PORT, sampleRegs) ∧
    dio_init sampleRegs 4 8 1 = (DIO_WRONG_PIN, sampleRegs) ∧
    dio_read sampleRegs 4 8 0 = (DIO_WRONG_PIN, sampleRegs, 0) ∧
    dio_write sampleRegs 4 8 1 = (DIO_WRONG_PIN, sampleRegs) ∧
    dio_toggle sampleRegs 4 8 = (DIO_WRONG_PIN, sampleRegs) ∧
    dio_port_init sampleRegs 4 1 0x0F = (DIO_WRONG_PORT, sampleRegs) ∧
    dio_port_toggle sampleRegs 4 0x0F = (DIO_ERROR, sampleRegs) ∧
    dio_port_write sampleRegs 4 0xFF 0x0F = (DIO_ERROR, sampleRegs) ∧
    dio_port_write sampleRegs 4 0x55 0x0F = (DIO_WRONG_PORT_VAL, sampleRegs) :=
  ⟨(C11_port_total_amended sampleRegs 2 1 1 0 0xFF 0x0F).1,
    (C11_port_total_amended sampleRegs 2 1 1 0 0xFF 0x0F).2.1,
    (C11_port_total_amended sampleRegs 2 1 1 0 0xFF 0x0F).2.2.1,
    (C11_port_total_amended sampleRegs 2 1 1 0 0xFF 0x0F).2.2.2.1,
    (C11_port_total_amended sampleRegs 8 1 1 0 0xFF 0x0F).1,
    (C11_port_total_amended sampleRegs 8 1 1 0 0xFF 0x0F).2.1,
    (C11_port_total_amended sampleRegs 8 1 1 0 0xFF 0x0F).2.2.1,
    (C11_port_total_amended sampleRegs 8 1 1 0 0xFF 0x0F).2.2.2.1,
    (C11_port_total_amended sampleRegs 2 1 1 0 0xFF 0x0F).2.2.2.2.1,
    (C11_port_total_amended sampleRegs 2 1 1 0 0xFF 0x0F).2.2.2.2.2.1,
    (C11_port_total_amended sampleRegs 2 1 1 0 0xFF 0x0F).2.2.2.2.2.2.1,
    (C11_port_total_amended sampleRegs 2 1 1 0 0x55 0x0F).2.2.2.2.2.2.1⟩

/-- C12: for every port selector, valid or not, every mask and every value other than
0x00 and 0xFF, `dio_port_write` returns `DIO_WRONG_PORT_VAL` and leaves every register as
it was; so does `dio_port_write` on port D with value 0x55 and any mask. -/
theorem C12_write_port_rejects_value (s : Regs) (port value mask : Nat)
    (h0 : value ≠ 0x00) (h1 : value ≠ 0xFF) :
    dio_port_write s port value mask = (DIO_WRONG_PORT_VAL, s) ∧
    dio_port_write s DIO_PORT_D 0x55 mask = (DIO_WRONG_PORT_VAL, s) :=
  ⟨dio_port_write_wrong_value s port value mask h0 h1,
    dio_port_write_wrong_value s DIO_PORT_D 0x55 mask (by decide) (by decide)⟩

/-- C12, evaluated: value 0x55 on port D of the sample register file. -/
theorem C12_write_port_rejects_value_witness :
    dio_port_write sampleRegs DIO_PORT_D 0x55 0xF0 = (DIO_WRONG_PORT_VAL, sampleRegs) :=
  (C12_write_port_rejects_value sampleRegs DIO_PORT_D 0x55 0xF0 (by decide) (by decide)).1

/-! ## No store on a failing call -/

theorem dio_init_ok_or_same (s : Regs) (port pin direction : Nat) :
    (dio_init s port pin direction).1 = DIO_OK ∨ (dio_init s port pin direction).2 = s := by
  by_cases hpin : pin < 8
  · by_cases hport : port < 4
    · by_cases h0 : direction = DIO_IN
      · left
        rw [h0, dio_init_in_valid s port pin hport hpin]
      · by_cases h1 : direction = DIO_OUT
        · left
          rw [h1, dio_init_out_valid s port pin hport hpin]
        · right
          rw [dio_init_wrong_dir s port pin direction hport hpin h0 h1]
    · right
      rw [dio_init_wrong_port s port pin direction hpin (by omega)]
  · right
    rw [dio_init_wrong_pin s port pin direction (by omega)]

theorem dio_read_same (s : Regs) (port pin val : Nat) : (dio_read s port pin val).2.1 = s := by
  by_cases hpin : pin < 8
  · by_cases hport : port < 4
    · rw [dio_read_valid s port pin val hport hpin]
    · rw [dio_read_wrong_port s port pin val hpin (by omega)]
  · rw [dio_read_wrong_pin s port pin val (by omega)]

theorem dio_write_ok_or_same (s : Regs) (port pin value : Nat) :
    (dio_write s port pin value).1 = DIO_OK ∨ (dio_write s port pin value).2 = s := by
  by_cases hpin : pin < 8
  · by_cases hport : port < 4
    · by_cases hv : value < 2
      · left
        rw [dio_write_valid s port pin value hport hpin hv]
      · right
        rw [dio_write_wrong_value s port pin value hport hpin (by omega)]
    · right
      rw [dio_write_wrong_port s port pin value hpin (by omega)]
  · right
    rw [dio_write_wrong_pin s port pin value (by omega)]

theorem dio_toggle_ok_or_same (s : Regs) (port pin : Nat) :
    (dio_toggle s port pin).1 = DIO_OK ∨ (dio_toggle s port pin).2 = s := by
  by_cases hpin : pin < 8
  · by_cases hport : port < 4
    · left
      rw [dio_toggle_valid s port pin hport hpin]
    · right
      rw [dio_toggle_wrong_port s port pin hpin (by omega)]
  · right
    rw [dio_toggle_wrong_pin s port pin (by omega)]

theorem dio_port_init_ok_or_same (s : Regs) (port direction mask : Nat) :
    (dio_port_init s port direction mask).1 = DIO_OK ∨
      (dio_port_init s port direction mask).2 = s := by
  by_cases hport : port < 4
  · left
    rw [dio_port_init_valid s port direction mask hport]
  · right
    rw [dio_port_init_invalid s port direction mask (by omega)]

theorem dio_port_write_ok_or_same (s : Regs) (port value mask : Nat) :
    (dio_port_write s port value mask).1 = DIO_OK ∨
      (dio_port_write s port value mask).2 = s := by
  by_cases hv : value = 0 ∨ value = 255
  · by_cases hport : port < 4
    · left
      rw [dio_port_write_valid s port value mask hport hv]
    · right
      rw [dio_port_write_invalid s port value mask (by omega) hv]
  · right
    rw [dio_port_write_wrong_value s port value mask (fun h => hv (Or.inl h))
      (fun h => hv (Or.inr h))]

theorem dio_port_toggle_ok_or_same (s : Regs) (port mask : Nat) :
    (dio_port_toggle s port mask).1 = DIO_OK ∨ (dio_port_toggle s port mask).2 = s := by
  by_cases hport : port < 4
  · left
    rw [dio_port_toggle_valid s port mask hport]
  · right
    rw [dio_port_toggle_invalid s port mask (by omega)]

/-- C13: atomicity on failure. For each of the seven operations, all arguments and every
register file: when the outcome code is not `DIO_OK`, the register file after the call is
the one before it (direction, output data and input data registers of all four ports). -/
theorem C13_failure_leaves_registers (s : Regs)
    (port pin direction value val mask : Nat) :
    ((dio_init s port pin direction).1 ≠ DIO_OK → (dio_init s port pin direction).2 = s) ∧
    ((dio_read s port pin val).1 ≠ DIO_OK → (dio_read s port pin val).2.1 = s) ∧
    ((dio_write s port pin value).1 ≠ DIO_OK → (dio_write s port pin value).2 = s) ∧
    ((dio_toggle s port pin).1 ≠ DIO_OK → (dio_toggle s port pin).2 = s) ∧
    ((dio_port_init s port direction mask).1 ≠ DIO_OK →
      (dio_port_init s port direction mask).2 = s) ∧
    ((dio_port_write s port value mask).1 ≠ DIO_OK →
      (dio_port_write s port value mask).2 = s) ∧
    ((dio_port_toggle s port mask).1 ≠ DIO_OK → (dio_port_toggle s port mask).2 = s) := by
  refine ⟨?_, ?_, ?_, ?_, ?_, ?_, ?_⟩
  · exact fun h => (dio_init_ok_or_same s port pin direction).resolve_left h
  · exact fun _ => dio_read_same s port pin val
  · exact fun h => (dio_write_ok_or_same s port pin value).resolve_left h
  · exact fun h => (dio_toggle_ok_or_same s port pin).resolve_left h
  · exact fun h => (dio_port_init_ok_or_same s port direction mask).resolve_left h
  · exact fun h => (dio_port_write_ok_or_same s port value mask).resolve_left h
  · exact fun h => (dio_port_toggle_ok_or_same s port mask).resolve_left h

/-- C13, evaluated: seven failing calls on the sample register file (direction 7, pin 9,
value 2, port 5, port 4, value 0x55, port 6). -/
theorem C13_failure_leaves_registers_witness :
    (dio_init sampleRegs 0 0 7).2 = sampleRegs ∧
    (dio_read sampleRegs 1 9 0).2.1 = sampleRegs ∧
    (dio_write sampleRegs 2 3 2).2 = sampleRegs ∧
    (dio_toggle sampleRegs 5 1).2 = sampleRegs ∧
    (dio_port_init sampleRegs 4 0xFF 0x0F).2 = sampleRegs ∧
    (dio_port_write sampleRegs 3 0x55 0x0F).2 = sampleRegs ∧
    (dio_port_toggle sampleRegs 6 0x0F).2 = sampleRegs :=
  ⟨(C13_failure_leaves_registers sampleRegs 0 0 7 0 0 0).1 (by decide),
    (C13_failure_leaves_registers sampleRegs 1 9 0 0 0 0).2.1 (by decide),
    (C13_failure_leaves_registers sampleRegs 2 3 0 2 0 0).2.2.1 (by decide),
    (C13_failure_leaves_registers sampleRegs 5 1 0 0 0 0).2.2.2.1 (by decide),
    (C13_failure_leaves_registers sampleRegs 4 0 0xFF 0 0 0x0F).2.2.2.2.1 (by decide),
    (C13_failure_leaves_registers sampleRegs 3 0 0 0x55 0 0x0F).2.2.2.2.2.1 (by decide),
    (C13_failure_leaves_registers sampleRegs 6 0 0 0 0 0x0F).2.2.2.2.2.2 (by decide)⟩

/-! ## Mask normalisation and outcome codes -/

theorem masked_all_ones (old : Nat) : ((INT_NOT 255 &&& old) ||| (255 &&& 255)) % 256 = 255 := by
  apply Nat.eq_of_testBit_eq
  intro i
  have h255 : (255 : Nat) = 2 ^ 8 - 1 := by norm_num
  by_cases hi : i < 8
  · rw [masked_testBit 255 old 255 i (by norm_num) hi, h255, Nat.testBit_two_pow_sub_one]
    simp [hi]
  · rw [testBit_mod_256]
    rw [h255, Nat.testBit_two_pow_sub_one]
    simp [hi]

/-- C14: zero-mask normalisation. For each port-level operation, all other arguments and
every register file, the call with mask 0 gives the same outcome code and the same register
file as the call with mask 0xFF; `dio_port_write` on port C with value 0xFF and mask 0x00
leaves the output data register of port C at 0xFF. -/
theorem C14_zero_mask_is_no_mask (s : Regs) (port direction value : Nat) :
    dio_port_init s port direction DIO_MASK_ZERO = dio_port_init s port direction DIO_NO_MASK ∧
    dio_port_write s port value DIO_MASK_ZERO = dio_port_write s port value DIO_NO_MASK ∧
    dio_port_toggle s port DIO_MASK_ZERO = dio_port_toggle s port DIO_NO_MASK ∧
    (dio_port_write s DIO_PORT_C DIO_PORT_HIGH 0x00).1 = DIO_OK ∧
    portOf (dio_port_write s DIO_PORT_C DIO_PORT_HIGH 0x00).2 DIO_PORT_C = 0xFF := by
  refine ⟨rfl, rfl, rfl, ?_, ?_⟩
  · rw [dio_port_write_valid s DIO_PORT_C DIO_PORT_HIGH 0x00 (by decide) (Or.inr rfl)]
  · rw [dio_port_write_valid s DIO_PORT_C DIO_PORT_HIGH 0x00 (by decide) (Or.inr rfl)]
    simp only [portOf_setPort s DIO_PORT_C _ (show DIO_PORT_C < 4 by decide)]
    exact masked_all_ones _

/-- C15: outcome code of `dio_init` for all arguments: `DIO_WRONG_PIN` if the pin is 8 or
more, whatever the port and direction; otherwise `DIO_WRONG_PORT` if the port is 4 or more,
whatever the direction; otherwise `DIO_WRONG_PIN_VAL` if the direction is neither `DIO_IN`
nor `DIO_OUT`; otherwise `DIO_OK`. -/
theorem C15_init_pin_outcome (s : Regs) (port pin direction : Nat) :
    (dio_init s port pin direction).1 =
      if pin ≥ 8 then DIO_WRONG_PIN
      else if port ≥ 4 then DIO_WRONG_PORT
      else if direction ≠ 0 ∧ direction ≠ 1 then DIO_WRONG_PIN_VAL
      else DIO_OK := by
  by_cases hpin : pin ≥ 8
  · rw [if_pos hpin, dio_init_wrong_pin s port pin direction hpin]
  · rw [if_neg hpin]
    by_cases hport : port ≥ 4
    · rw [if_pos hport, dio_init_wrong_port s port pin direction (by omega) hport]
    · rw [if_neg hport]
      by_cases hdir : direction ≠ 0 ∧ direction ≠ 1
      · rw [if_pos hdir,
          dio_init_wrong_dir s port pin direction (by omega) (by omega) hdir.1 hdir.2]
      · rw [if_neg hdir]
        have h01 : direction = 0 ∨ direction = 1 := by omega
        rcases h01 with h | h
        · rw [h]
          exact congrArg Prod.fst (dio_init_in_valid s port pin (by omega) (by omega))
        · rw [h]
          exact congrArg Prod.fst (dio_init_out_valid s port pin (by omega) (by omega))

/-- C16: outcome code of `dio_write` for all arguments: `DIO_WRONG_PIN` if the pin is 8 or
more; otherwise `DIO_WRONG_PORT` if the port is 4 or more; otherwise `DIO_WRONG_PIN_VAL`
if the value is 2 or more; otherwise `DIO_OK`. The value check never hides a pin or port
error, and a selector that names none of the ports A to D gives `DIO_WRONG_PORT`. -/
theorem C16_write_pin_outcome (s : Regs) (port pin value : Nat) :
    (dio_write s port pin value).1 =
      if pin ≥ 8 then DIO_WRONG_PIN
      else if port ≥ 4 then DIO_WRONG_PORT
      else if value ≥ 2 then DIO_WRONG_PIN_VAL
      else DIO_OK := by
  by_cases hpin : pin ≥ 8
  · rw [if_pos hpin, dio_write_wrong_pin s port pin value hpin]
  · rw [if_neg hpin]
    by_cases hport : port ≥ 4
    · rw [if_pos hport, dio_write_wrong_port s port pin value (by omega) hport]
    · rw [if_neg hport]
      by_cases hval : value ≥ 2
      · rw [if_pos hval, dio_write_wrong_value s port pin value (by omega) (by omega) hval]
      · rw [if_neg hval, dio_write_valid s port pin value (by omega) (by omega) (by omega)]

/-- C17: for every port selector of 4 or more and every mask, `dio_port_toggle` returns the
generic `DIO_ERROR`, and so does `dio_port_write` with value 0x00 or 0xFF; this code is not
`DIO_WRONG_PORT`, and no register is changed. -/
theorem C17_port_level_generic_error (s : Regs) (port value mask : Nat)
    (hport : port ≥ DIO_PORT_TOTAL) (hval : value = DIO_PORT_LOW ∨ value = DIO_PORT_HIGH) :
    dio_port_toggle s port mask = (DIO_ERROR, s) ∧
    dio_port_write s port value mask = (DIO_ERROR, s) ∧
    DIO_ERROR ≠ DIO_WRONG_PORT :=
  ⟨dio_port_toggle_invalid s port mask hport,
    dio_port_write_invalid s port value mask hport hval, by decide⟩

/-- C17, evaluated: port selector 9 on the sample register file. -/
theorem C17_port_level_generic_error_witness :
    dio_port_toggle sampleRegs 9 0x3C = (DIO_ERROR, sampleRegs) ∧
    dio_port_write sampleRegs 9 0xFF 0x3C = (DIO_ERROR, sampleRegs) ∧
    DIO_ERROR ≠ DIO_WRONG_PORT :=
  C17_port_level_generic_error sampleRegs 9 0xFF 0x3C (by decide) (Or.inr rfl)

/-- C18: `dio_port_init` validates nothing but the port. For every direction byte in
[0,255] and every mask it returns `DIO_OK` if the port is below 4 and `DIO_WRONG_PORT`
otherwise; on `DIO_OK` the direction register becomes `(~m & old) | (m & direction)` with
`m` the normalised mask, so the bits outside `m` are preserved for any direction byte. -/
theorem C18_init_port_only_checks_port (s : Regs) (port direction mask : Nat)
    (hdir : direction < 256) (hmask : mask < 256) :
    (port < 4 →
      (dio_port_init s port direction mask).1 = DIO_OK ∧
      ddrOf (dio_port_init s port direction mask).2 port =
        (((255 - effMask mask) &&& ddrOf s port) ||| (effMask mask &&& direction)) % 256 ∧
      (ddrOf s port < 256 →
        ddrOf (dio_port_init s port direction mask).2 port =
          ((255 - effMask mask) &&& ddrOf s port) ||| (effMask mask &&& direction)) ∧
      (∀ i, i < 8 → (effMask mask).testBit i = true →
        (ddrOf (dio_port_init s port direction mask).2 port).testBit i =
          direction.testBit i) ∧
      (∀ i, i < 8 → (effMask mask).testBit i = false →
        (ddrOf (dio_port_init s port direction mask).2 port).testBit i =
          (ddrOf s port).testBit i)) ∧
    (port ≥ 4 → dio_port_init s port direction mask = (DIO_WRONG_PORT, s)) := by
  have hm := effMask_lt mask hmask
  refine ⟨?_, fun hport => dio_port_init_invalid s port direction mask hport⟩
  intro hport
  rw [dio_port_init_valid s port direction mask hport]
  simp only [ddrOf_setDdr s port _ hport]
  refine ⟨trivial, masked_eq_byte _ _ _ hm, ?_, ?_, ?_⟩
  · intro hold
    rw [masked_eq_byte _ _ _ hm]
    apply Nat.mod_eq_of_lt
    exact Nat.or_lt_two_pow (n := 8) (Nat.and_lt_two_pow _ (n := 8) hold)
      (Nat.and_lt_two_pow _ (n := 8) hdir)
  · intro i hi hbit
    rw [masked_testBit _ _ _ _ hm hi, if_pos hbit]
  · intro i hi hbit
    rw [masked_testBit _ _ _ _ hm hi, if_neg (by simp [hbit])]

/-- C18, evaluated: direction byte 0x5A with mask 0x3C on port A, and on port selector 4,
of the sample register file. -/
theorem C18_init_port_only_checks_port_witness :
    (dio_port_init sampleRegs 0 0x5A 0x3C).1 = DIO_OK ∧
    ddrOf (dio_port_init sampleRegs 0 0x5A 0x3C).2 0 = 0x1B ∧
    dio_port_init sampleRegs 4 0x5A 0x3C = (DIO_WRONG_PORT, sampleRegs) :=
  ⟨((C18_init_port_only_checks_port sampleRegs 0 0x5A 0x3C (by decide) (by decide)).1
      (by decide)).1,
    by decide,
    (C18_init_port_only_checks_port sampleRegs 4 0x5A 0x3C (by decide) (by decide)).2
      (by decide)⟩

/-! ## Frame: which registers a call may change -/

/-- The accessors `ddrOf`, `portOf` and `pinOf` on the selectors 0 to 3 see all twelve
registers. -/
theorem regs_eq_of_accessors (s t : Regs)
    (h : ∀ q, ddrOf t q = ddrOf s q ∧ portOf t q = portOf s q ∧ pinOf t q = pinOf s q) :
    t = s := by
  have a0 : t.DIO_U8_DDR_A_REG = s.DIO_U8_DDR_A_REG := (h 0).1
  have b0 : t.DIO_U8_PORT_A_REG = s.DIO_U8_PORT_A_REG := (h 0).2.1
  have c0 : t.DIO_U8_PIN_A_REG = s.DIO_U8_PIN_A_REG := (h 0).2.2
  have a1 : t.DIO_U8_DDR_B_REG = s.DIO_U8_DDR_B_REG := (h 1).1
  have b1 : t.DIO_U8_PORT_B_REG = s.DIO_U8_PORT_B_REG := (h 1).2.1
  have c1 : t.DIO_U8_PIN_B_REG = s.DIO_U8_PIN_B_REG := (h 1).2.2
  have a2 : t.DIO_U8_DDR_C_REG = s.DIO_U8_DDR_C_REG := (h 2).1
  have b2 : t.DIO_U8_PORT_C_REG = s.DIO_U8_PORT_C_REG := (h 2).2.1
  have c2 : t.DIO_U8_PIN_C_REG = s.DIO_U8_PIN_C_REG := (h 2).2.2
  have a3 : t.DIO_U8_DDR_D_REG = s.DIO_U8_DDR_D_REG := (h 3).1
  have b3 : t.DIO_U8_PORT_D_REG = s.DIO_U8_PORT_D_REG := (h 3).2.1
  have c3 : t.DIO_U8_PIN_D_REG = s.DIO_U8_PIN_D_REG := (h 3).2.2
  cases s
  cases t
  simp only at a0 b0 c0 a1 b1 c1 a2 b2 c2 a3 b3 c3
  subst a0 b0 c0 a1 b1 c1 a2 b2 c2 a3 b3 c3
  rfl

theorem onlyDdrChanged_of (s t : Regs) (port : Nat)
    (h : t = s ∨ ∃ v, t = setDdr s port v) : onlyDdrChanged s t port := by
  intro q
  rcases h with h | ⟨v, h⟩
  · rw [h]
    exact ⟨rfl, rfl, fun _ => rfl⟩
  · rw [h]
    exact ⟨pinOf_setDdr s port q v, portOf_setDdr s port q v,
      fun hq => ddrOf_setDdr_ne s port q v hq⟩

theorem onlyPortChanged_of (s t : Regs) (port : Nat)
    (h : t = s ∨ ∃ v, t = setPort s port v) : onlyPortChanged s t port := by
  intro q
  rcases h with h | ⟨v, h⟩
  · rw [h]
    exact ⟨rfl, rfl, fun _ => rfl⟩
  · rw [h]
    exact ⟨pinOf_setPort s port q v, ddrOf_setPort s port q v,
      fun hq => portOf_setPort_ne s port q v hq⟩

theorem dio_init_state (s : Regs) (port pin direction : Nat) :
    (dio_init s port pin direction).2 = s ∨
      ∃ v, (dio_init s port pin direction).2 = setDdr s port v := by
  by_cases hpin : pin < 8
  · by_cases hport : port < 4
    · by_cases h0 : direction = DIO_IN
      · right
        rw [h0, dio_init_in_valid s port pin hport hpin]
        exact ⟨_, rfl⟩
      · by_cases h1 : direction = DIO_OUT
        · right
          rw [h1, dio_init_out_valid s port pin hport hpin]
          exact ⟨_, rfl⟩
        · left
          rw [dio_init_wrong_dir s port pin direction hport hpin h0 h1]
    · left
      rw [dio_init_wrong_port s port pin direction hpin (by omega)]
  · left
    rw [dio_init_wrong_pin s port pin direction (by omega)]

theorem dio_write_state (s : Regs) (port pin value : Nat) :
    (dio_write s port pin value).2 = s ∨
      ∃ v, (dio_write s port pin value).2 = setPort s port v := by
  by_cases hpin : pin < 8
  · by_cases hport : port < 4
    · by_cases hv : value < 2
      · right
        rw [dio_write_valid s port pin value hport hpin hv]
        exact ⟨_, rfl⟩
      · left
        rw [dio_write_wrong_value s port pin value hport hpin (by omega)]
    · left
      rw [dio_write_wrong_port s port pin value hpin (by omega)]
  · left
    rw [dio_write_wrong_pin s port pin value (by omega)]

theorem dio_toggle_state (s : Regs) (port pin : Nat) :
    (dio_toggle s port pin).2 = s ∨ ∃ v, (dio_toggle s port pin).2 = setPort s port v := by
  by_cases hpin : pin < 8
  · by_cases hport : port < 4
    · right
      rw [dio_toggle_valid s port pin hport hpin]
      exact ⟨_, rfl⟩
    · left
      rw [dio_toggle_wrong_port s port pin hpin (by omega)]
  · left
    rw [dio_toggle_wrong_pin s port pin (by omega)]

theorem dio_port_init_state (s : Regs) (port direction mask : Nat) :
    (dio_port_init s port direction mask).2 = s ∨
      ∃ v, (dio_port_init s port direction mask).2 = setDdr s port v := by
  by_cases hport : port < 4
  · right
    rw [dio_port_init_valid s port direction mask hport]
    exact ⟨_, rfl⟩
  · left
    rw [dio_port_init_invalid s port direction mask (by omega)]

theorem dio_port_write_state (s : Regs) (port value mask : Nat) :
    (dio_port_write s port value mask).2 = s ∨
      ∃ v, (dio_port_write s port value mask).2 = setPort s port v := by
  by_cases hv : value = 0 ∨ value = 255
  · by_cases hport : port < 4
    · right
      rw [dio_port_write_valid s port value mask hport hv]
      exact ⟨_, rfl⟩
    · left
      rw [dio_port_write_invalid s port value mask (by omega) hv]
  · left
    rw [dio_port_write_wrong_value s port value mask (fun h => hv (Or.inl h))
      (fun h => hv (Or.inr h))]

theorem dio_port_toggle_state (s : Regs) (port mask : Nat) :
    (dio_port_toggle s port mask).2 = s ∨
      ∃ v, (dio_port_toggle s port mask).2 = setPort s port v := by
  by_cases hport : port < 4
  · right
    rw [dio_port_toggle_valid s port mask hport]
    exact ⟨_, rfl⟩
  · left
    rw [dio_port_toggle_invalid s port mask (by omega)]

/-- C19: frame. A call changes at most one register, the targeted one: `dio_init` and
`dio_port_init` on port P leave every register but the direction register of P as it was;
`dio_write`, `dio_toggle`, `dio_port_write` and `dio_port_toggle` on port P leave every
register but the output data register of P as it was; `dio_read` leaves the whole register
file as it was. No call changes an input data register or a register of another port. -/
theorem C19_frame (s : Regs) (port pin direction value val mask : Nat) :
    onlyDdrChanged s (dio_init s port pin direction).2 port ∧
    onlyDdrChanged s (dio_port_init s port direction mask).2 port ∧
    onlyPortChanged s (dio_write s port pin value).2 port ∧
    onlyPortChanged s (dio_toggle s port pin).2 port ∧
    onlyPortChanged s (dio_port_write s port value mask).2 port ∧
    onlyPortChanged s (dio_port_toggle s port mask).2 port ∧
    (dio_read s port pin val).2.1 = s :=
  ⟨onlyDdrChanged_of _ _ _ (dio_init_state s port pin direction),
    onlyDdrChanged_of _ _ _ (dio_port_init_state s port direction mask),
    onlyPortChanged_of _ _ _ (dio_write_state s port pin value),
    onlyPortChanged_of _ _ _ (dio_toggle_state s port pin),
    onlyPortChanged_of _ _ _ (dio_port_write_state s port value mask),
    onlyPortChanged_of _ _ _ (dio_port_toggle_state s port mask),
    dio_read_same s port pin val⟩

/-! ## The scenario on pin 3 of port A -/

theorem scenarioInit_eq (s : Regs) :
    scenarioInit s = readBack (setDdr s DIO_PORT_A (SET_BIT (ddrOf s DIO_PORT_A) 3)) := by
  unfold scenarioInit
  rw [dio_init_out_valid s DIO_PORT_A 3 (by decide) (by decide)]

theorem scenarioInit_ddr (s : Regs) : (ddrOf (scenarioInit s) DIO_PORT_A).testBit 3 = true := by
  rw [scenarioInit_eq, ddrOf_readBack, ddrOf_setDdr s DIO_PORT_A _ (by decide),
    SET_BIT_testBit _ _ _ (by decide)]
  simp

theorem scenarioInit_portOf (s : Regs) (q : Nat) : portOf (scenarioInit s) q = portOf s q := by
  rw [scenarioInit_eq, portOf_readBack, portOf_setDdr]

theorem scenarioWrite_eq (s : Regs) :
    scenarioWrite s = readBack (setPort (scenarioInit s) DIO_PORT_A
      (WRITE_BIT (portOf (scenarioInit s) DIO_PORT_A) 3 DIO_PIN_HIGH)) := by
  unfold scenarioWrite
  rw [dio_write_valid (scenarioInit s) DIO_PORT_A 3 DIO_PIN_HIGH (by decide) (by decide)
    (by decide)]

theorem scenarioWrite_testBit (s : Regs) (i : Nat) (hi : i < 8) :
    (portOf (scenarioWrite s) DIO_PORT_A).testBit i =
      if 3 = i then true else (portOf (scenarioInit s) DIO_PORT_A).testBit i := by
  rw [scenarioWrite_eq, portOf_readBack, portOf_setPort _ DIO_PORT_A _ (by decide),
    WRITE_BIT_testBit _ 3 DIO_PIN_HIGH i (by decide) (by decide) hi]
  rfl

/-- After the write, the input data register of port A shows pin 3 high: the pin is an
output and follows its output data register bit. -/
theorem scenarioWrite_pin_high (s : Regs) :
    (pinOf (scenarioWrite s) DIO_PORT_A).testBit 3 = true := by
  have hddr : (ddrOf (setPort (scenarioInit s) DIO_PORT_A
      (WRITE_BIT (portOf (scenarioInit s) DIO_PORT_A) 3 DIO_PIN_HIGH)) DIO_PORT_A).testBit 3 =
        true := by
    rw [ddrOf_setPort]
    exact scenarioInit_ddr s
  have hport : (portOf (setPort (scenarioInit s) DIO_PORT_A
      (WRITE_BIT (portOf (scenarioInit s) DIO_PORT_A) 3 DIO_PIN_HIGH)) DIO_PORT_A).testBit 3 =
        true := by
    rw [portOf_setPort _ DIO_PORT_A _ (by decide),
      WRITE_BIT_testBit _ 3 DIO_PIN_HIGH 3 (by decide) (by decide) (by decide)]
    rfl
  rw [scenarioWrite_eq, pinOf_readBack_testBit _ DIO_PORT_A 3 (by decide) (by decide),
    if_pos hddr, hport]

/-- C20: for every initial register file, the sequence `dio_init` (port A, pin 3, OUT),
`dio_write` (port A, pin 3, HIGH), `dio_toggle` (port A, pin 3), the pins settling after
each call, returns `DIO_OK` at each step; after the first call bit 3 of the direction
register of port A is 1; after the second call bit 3 of the output data register of port A
is 1 and its other bits are unchanged; after the third call that bit is 0. -/
theorem C20_scenario (s : Regs) :
    (dio_init s DIO_PORT_A 3 DIO_OUT).1 = DIO_OK ∧
    (ddrOf (scenarioInit s) DIO_PORT_A).testBit 3 = true ∧
    (dio_write (scenarioInit s) DIO_PORT_A 3 DIO_PIN_HIGH).1 = DIO_OK ∧
    (portOf (scenarioWrite s) DIO_PORT_A).testBit 3 = true ∧
    (∀ i, i < 8 → i ≠ 3 →
      (portOf (scenarioWrite s) DIO_PORT_A).testBit i =
        (portOf (scenarioInit s) DIO_PORT_A).testBit i ∧
      (portOf (scenarioWrite s) DIO_PORT_A).testBit i = (portOf s DIO_PORT_A).testBit i) ∧
    (dio_toggle (scenarioWrite s) DIO_PORT_A 3).1 = DIO_OK ∧
    (portOf (dio_toggle (scenarioWrite s) DIO_PORT_A 3).2 DIO_PORT_A).testBit 3 = false ∧
    (portOf (scenarioToggle s) DIO_PORT_A).testBit 3 = false := by
  have hA : DIO_PORT_A < 4 := by decide
  have h3 : (3 : Nat) < 8 := by decide
  have htog : (portOf (dio_toggle (scenarioWrite s) DIO_PORT_A 3).2 DIO_PORT_A).testBit 3 =
      false := by
    rw [dio_toggle_testBit (scenarioWrite s) DIO_PORT_A 3 3 hA h3 h3, if_pos rfl,
      scenarioWrite_pin_high]
    rfl
  refine ⟨?_, scenarioInit_ddr s, ?_, ?_, ?_, ?_, htog, ?_⟩
  · rw [dio_init_out_valid s DIO_PORT_A 3 hA h3]
  · rw [dio_write_valid (scenarioInit s) DIO_PORT_A 3 DIO_PIN_HIGH hA h3 (by decide)]
  · rw [scenarioWrite_testBit s 3 h3, if_pos rfl]
  · intro i hi hne
    have h := scenarioWrite_testBit s i hi
    rw [if_neg (fun h => hne h.symm)] at h
    exact ⟨h, by rw [h, scenarioInit_portOf]⟩
  · rw [dio_toggle_valid (scenarioWrite s) DIO_PORT_A 3 hA h3]
  · unfold scenarioToggle
    rw [portOf_readBack]
    exact htog

/-! ## The predefined masks of dio_interface.h -/

set_option maxRecDepth 100000 in
theorem maskTable_values :
    ∀ e ∈ maskTable, e.2 = (e.1.map (fun i => 2 ^ i)).sum ∧ e.1.Pairwise (· < ·) ∧
      (∀ i ∈ e.1, i < 8) ∧ (∀ i, i < 8 → (e.2.testBit i = true ↔ i ∈ e.1)) := by
  decide

set_option maxRecDepth 100000 in
theorem maskTable_nodup : (maskTable.map Prod.snd ++ [DIO_NO_MASK]).Nodup := by
  decide

set_option maxRecDepth 100000 in
theorem maskTable_cover :
    ∀ v, v < 256 → 1 ≤ v → v ∈ maskTable.map Prod.snd ∨ v = DIO_NO_MASK := by
  decide

set_option maxRecDepth 100000 in
theorem maskTable_length : maskTable.length = 254 := by
  decide

/-- C21: the predefined masks are correct and complete. Every `DIO_MASK_BITS_i1_..._ik` has
the value `2^i1 + ... + 2^ik`, exactly the bits its identifier names being set (for
instance `DIO_MASK_BITS_0_1_2_3 = 0x0F`); `DIO_NO_MASK = 0xFF` selects all eight bits; no
two constants share a value; with `DIO_NO_MASK` they cover every byte from 1 to 255. -/
theorem C21_mask_constants :
    maskTable.length = 254 ∧
    (∀ e ∈ maskTable, e.2 = (e.1.map (fun i => 2 ^ i)).sum ∧ e.1.Pairwise (· < ·) ∧
      (∀ i ∈ e.1, i < 8) ∧ (∀ i, i < 8 → (e.2.testBit i = true ↔ i ∈ e.1))) ∧
    DIO_MASK_BITS_0_1_2_3 = 0x0F ∧
    DIO_NO_MASK = 0xFF ∧
    (∀ i, i < 8 → DIO_NO_MASK.testBit i = true) ∧
    (maskTable.map Prod.snd ++ [DIO_NO_MASK]).Nodup ∧
    (∀ v, 1 ≤ v → v ≤ 255 → v ∈ maskTable.map Prod.snd ∨ v = DIO_NO_MASK) :=
  ⟨maskTable_length, maskTable_values, rfl, rfl, by decide, maskTable_nodup,
    fun v h1 h255 => maskTable_cover v (by omega) h1⟩

/-! ## Outcome of a toggle, purity of a read -/

/-- C22: `dio_toggle` never returns `DIO_READ_ERROR`. For all arguments and register files
its outcome is `DIO_WRONG_PIN` if the pin is 8 or more, otherwise `DIO_WRONG_PORT` if the
port is 4 or more, otherwise `DIO_OK`; whenever the entry check passes, the inner
`dio_read` returns `DIO_OK` with a value that is LOW or HIGH and the inner `dio_write` of
the complement returns `DIO_OK` too, so no failure of the write is swallowed. -/
theorem C22_toggle_pin_outcome (s : Regs) (port pin : Nat) :
    (dio_toggle s port pin).1 =
      (if pin ≥ 8 then DIO_WRONG_PIN else if port ≥ 4 then DIO_WRONG_PORT else DIO_OK) ∧
    (dio_toggle s port pin).1 ≠ DIO_READ_ERROR ∧
    (dio_pin_port_check port pin = DIO_OK →
      (dio_read s port pin DIO_PIN_LOW).1 = DIO_OK ∧
      ((dio_read s port pin DIO_PIN_LOW).2.2 = DIO_PIN_LOW ∨
        (dio_read s port pin DIO_PIN_LOW).2.2 = DIO_PIN_HIGH) ∧
      (dio_write (dio_read s port pin DIO_PIN_LOW).2.1 port pin
        (if (dio_read s port pin DIO_PIN_LOW).2.2 = DIO_PIN_LOW then DIO_PIN_HIGH
          else DIO_PIN_LOW)).1 = DIO_OK) := by
  by_cases hpin : pin ≥ 8
  · rw [if_pos hpin, dio_toggle_wrong_pin s port pin hpin,
      dio_pin_port_check_pin port pin hpin]
    refine ⟨rfl, ?_, fun h => absurd h (by decide)⟩
    show DIO_WRONG_PIN ≠ DIO_READ_ERROR
    decide
  · rw [if_neg hpin]
    by_cases hport : port ≥ 4
    · rw [if_pos hport, dio_toggle_wrong_port s port pin (by omega) hport,
        dio_pin_port_check_port port pin (by omega) hport]
      refine ⟨rfl, ?_, fun h => absurd h (by decide)⟩
      show DIO_WRONG_PORT ≠ DIO_READ_ERROR
      decide
    · have hport4 : port < 4 := by omega
      have hpin8 : pin < 8 := by omega
      rw [if_neg hport, dio_toggle_valid s port pin hport4 hpin8,
        dio_read_valid s port pin DIO_PIN_LOW hport4 hpin8]
      refine ⟨rfl, ?_, fun _ => ⟨rfl, ?_, ?_⟩⟩
      · show DIO_OK ≠ DIO_READ_ERROR
        decide
      · show GET_BIT (pinOf s port) pin = DIO_PIN_LOW ∨
          GET_BIT (pinOf s port) pin = DIO_PIN_HIGH
        rw [GET_BIT_eq]
        cases (pinOf s port).testBit pin
        · exact Or.inl rfl
        · exact Or.inr rfl
      · show (dio_write s port pin
          (if GET_BIT (pinOf s port) pin = DIO_PIN_LOW then DIO_PIN_HIGH else DIO_PIN_LOW)).1 =
            DIO_OK
        have hv : (if GET_BIT (pinOf s port) pin = DIO_PIN_LOW then DIO_PIN_HIGH
            else DIO_PIN_LOW) < 2 := by
          unfold DIO_PIN_HIGH DIO_PIN_LOW
          split <;> omega
        rw [dio_write_valid s port pin _ hport4 hpin8 hv]

/-- C22, evaluated: the entry check passes for pin 1 of port B. -/
theorem C22_toggle_pin_outcome_witness :
    (dio_read sampleRegs 1 1 DIO_PIN_LOW).1 = DIO_OK ∧
    ((dio_read sampleRegs 1 1 DIO_PIN_LOW).2.2 = DIO_PIN_LOW ∨
      (dio_read sampleRegs 1 1 DIO_PIN_LOW).2.2 = DIO_PIN_HIGH) ∧
    (dio_write (dio_read sampleRegs 1 1 DIO_PIN_LOW).2.1 1 1
      (if (dio_read sampleRegs 1 1 DIO_PIN_LOW).2.2 = DIO_PIN_LOW then DIO_PIN_HIGH
        else DIO_PIN_LOW)).1 = DIO_OK :=
  (C22_toggle_pin_outcome sampleRegs 1 1).2.2 (by decide)

/-- C28: `dio_read` is a pure read. For all arguments and register files it leaves every
register as it was; when it fails (pin 8 or more, or port 4 or more) the caller's value is
left as it was; when it succeeds the value stored is 0 or 1, so that a following
`dio_write` of that value on the same port and pin returns `DIO_OK`. -/
theorem C28_read_pin_pure (s : Regs) (port pin val : Nat) :
    (dio_read s port pin val).2.1 = s ∧
    ((dio_read s port pin val).1 ≠ DIO_OK ↔ (pin ≥ 8 ∨ port ≥ 4)) ∧
    ((dio_read s port pin val).1 ≠ DIO_OK → (dio_read s port pin val).2.2 = val) ∧
    ((dio_read s port pin val).1 = DIO_OK →
      ((dio_read s port pin val).2.2 = 0 ∨ (dio_read s port pin val).2.2 = 1) ∧
      (dio_write s port pin (dio_read s port pin val).2.2).1 = DIO_OK) := by
  refine ⟨dio_read_same s port pin val, ?_⟩
  by_cases hpin : pin ≥ 8
  · rw [dio_read_wrong_pin s port pin val hpin]
    have hne : (DIO_WRONG_PIN, s, val).1 ≠ DIO_OK := by
      show DIO_WRONG_PIN ≠ DIO_OK
      decide
    exact ⟨⟨fun _ => Or.inl hpin, fun _ => hne⟩, fun _ => rfl, fun h => absurd h hne⟩
  · by_cases hport : port ≥ 4
    · rw [dio_read_wrong_port s port pin val (by omega) hport]
      have hne : (DIO_WRONG_PORT, s, val).1 ≠ DIO_OK := by
        show DIO_WRONG_PORT ≠ DIO_OK
        decide
      exact ⟨⟨fun _ => Or.inr hport, fun _ => hne⟩, fun _ => rfl, fun h => absurd h hne⟩
    · have hport4 : port < 4 := by omega
      have hpin8 : pin < 8 := by omega
      rw [dio_read_valid s port pin val hport4 hpin8]
      refine ⟨⟨fun h => absurd rfl h, fun h => by omega⟩, fun h => absurd rfl h, fun _ => ?_⟩
      show (GET_BIT (pinOf s port) pin = 0 ∨ GET_BIT (pinOf s port) pin = 1) ∧
        (dio_write s port pin (GET_BIT (pinOf s port) pin)).1 = DIO_OK
      have hv : GET_BIT (pinOf s port) pin < 2 := by
        rw [GET_BIT_eq]
        cases (pinOf s port).testBit pin <;> decide
      refine ⟨by omega, ?_⟩
      rw [dio_write_valid s port pin _ hport4 hpin8 hv]

/-- C28, evaluated: a failing read (pin 8) keeps the caller's value 7, and a successful
read of pin 2 of port A stores 1. -/
theorem C28_read_pin_pure_witness :
    (dio_read sampleRegs 0 8 7).2.2 = 7 ∧
    ((dio_read sampleRegs 0 2 7).2.2 = 0 ∨ (dio_read sampleRegs 0 2 7).2.2 = 1) ∧
    (dio_write sampleRegs 0 2 (dio_read sampleRegs 0 2 7).2.2).1 = DIO_OK :=
  ⟨(C28_read_pin_pure sampleRegs 0 8 7).2.2.1 (by decide),
    (C28_read_pin_pure sampleRegs 0 2 7).2.2.2 (by decide)⟩

/-! ## Masked stores: the common shape of the pin-level and port-level writes -/

theorem byte_ext (a b : Nat) (ha : a < 256) (hb : b < 256)
    (h : ∀ i, i < 8 → a.testBit i = b.testBit i) : a = b := by
  apply Nat.eq_of_testBit_eq
  intro i
  by_cases hi : i < 8
  · exact h i hi
  · have hle : 2 ^ 8 ≤ 2 ^ i := Nat.pow_le_pow_right (by norm_num) (by omega)
    rw [Nat.testBit_lt_two_pow (by omega), Nat.testBit_lt_two_pow (by omega)]

theorem one_shiftLeft_lt_256 (pin : Nat) (hpin : pin < 8) : 1 <<< pin < 256 := by
  rw [Nat.one_shiftLeft]
  calc 2 ^ pin < 2 ^ 8 := Nat.pow_lt_pow_right (by norm_num) hpin
    _ = 256 := by norm_num

theorem effMask_one_shiftLeft (pin : Nat) : effMask (1 <<< pin) = 1 <<< pin := by
  have hpos : 0 < 2 ^ pin := Nat.pos_pow_of_pos pin (by norm_num)
  unfold effMask
  rw [if_neg]
  rw [Nat.one_shiftLeft]
  omega

theorem isMaskedStore_masked (m d : Nat) (hm : m < 256) :
    IsMaskedStore (fun x => ((INT_NOT m &&& x) ||| (m &&& d)) % 256) m d := by
  intro x
  exact ⟨Nat.mod_lt _ (by norm_num), fun i hi => masked_testBit m x d i hm hi⟩

theorem isMaskedStore_SET_BIT (pin : Nat) :
    IsMaskedStore (fun x => SET_BIT x pin) (1 <<< pin) 0xFF := by
  intro x
  refine ⟨Nat.mod_lt _ (by norm_num), fun i hi => ?_⟩
  have h255 : (0xFF : Nat) = 2 ^ 8 - 1 := by norm_num
  rw [SET_BIT_testBit x pin i hi, one_shiftLeft_testBit, h255, Nat.testBit_two_pow_sub_one]
  by_cases h : pin = i <;> simp [h, hi]

theorem isMaskedStore_CLR_BIT (pin : Nat) (hpin : pin < 8) :
    IsMaskedStore (fun x => CLR_BIT x pin) (1 <<< pin) 0x00 := by
  intro x
  refine ⟨Nat.mod_lt _ (by norm_num), fun i hi => ?_⟩
  rw [CLR_BIT_testBit x pin i hpin hi, one_shiftLeft_testBit]
  by_cases h : pin = i <;> simp [h]

theorem isMaskedStore_WRITE_BIT (pin value : Nat) (hpin : pin < 8) (hv : value < 2) :
    IsMaskedStore (fun x => WRITE_BIT x pin value) (1 <<< pin)
      (if value = 1 then 0xFF else 0x00) := by
  intro x
  refine ⟨Nat.mod_lt _ (by norm_num), fun i hi => ?_⟩
  have h255 : (0xFF : Nat) = 2 ^ 8 - 1 := by norm_num
  rw [WRITE_BIT_testBit x pin value i hpin hv hi, one_shiftLeft_testBit]
  by_cases h : pin = i
  · by_cases h1 : value = 1
    · rw [if_pos h, if_pos h1, h255, Nat.testBit_two_pow_sub_one]
      simp [h, h1, hi]
    · rw [if_pos h, if_neg h1]
      simp [h, h1]
  · rw [if_neg h]
    simp [h]

theorem isMaskedStore_eq (f g : Nat → Nat) (m d : Nat) (hf : IsMaskedStore f m d)
    (hg : IsMaskedStore g m d) (x : Nat) : f x = g x :=
  byte_ext _ _ (hf x).1 (hg x).1 (fun i hi => by rw [(hf x).2 i hi, (hg x).2 i hi])

theorem isMaskedStore_idem (f : Nat → Nat) (m d : Nat) (hf : IsMaskedStore f m d)
    (x : Nat) : f (f x) = f x := by
  refine byte_ext _ _ (hf _).1 (hf x).1 (fun i hi => ?_)
  rw [(hf (f x)).2 i hi, (hf x).2 i hi]
  by_cases h : m.testBit i = true
  · simp only [if_pos h]
  · simp only [if_neg h]

theorem isMaskedStore_comm (f g : Nat → Nat) (m1 d1 m2 d2 : Nat)
    (hf : IsMaskedStore f m1 d1) (hg : IsMaskedStore g m2 d2)
    (hdisj : ∀ i, i < 8 → ¬ (m1.testBit i = true ∧ m2.testBit i = true)) (x : Nat) :
    f (g x) = g (f x) := by
  refine byte_ext _ _ (hf _).1 (hg _).1 (fun i hi => ?_)
  rw [(hf (g x)).2 i hi, (hg (f x)).2 i hi, (hg x).2 i hi, (hf x).2 i hi]
  by_cases h1 : m1.testBit i = true
  · have h2 : ¬ m2.testBit i = true := fun h2 => hdisj i hi ⟨h1, h2⟩
    simp only [if_pos h1, if_neg h2]
  · simp only [if_neg h1]

/-! ## Pin-level operations as port-level operations on a one-bit mask -/

/-- C23: the pin-level operations agree with the port-level ones on a one-bit mask. For
every port in [0,3], pin in [0,7] and register file, `dio_init` with OUT and with IN gives
the outcome and register file of `dio_port_init` with 0xFF and with 0x00 under the mask
`1 << pin`, and `dio_write` with HIGH and with LOW gives those of `dio_port_write` with 0xFF
and with 0x00 under that mask. -/
theorem C23_pin_level_is_port_level (s : Regs) (port pin : Nat)
    (hport : port < DIO_PORT_TOTAL) (hpin : pin < DIO_PIN_TOTAL) :
    dio_init s port pin DIO_OUT = dio_port_init s port 0xFF (1 <<< pin) ∧
    dio_init s port pin DIO_IN = dio_port_init s port 0x00 (1 <<< pin) ∧
    dio_write s port pin DIO_PIN_HIGH = dio_port_write s port 0xFF (1 <<< pin) ∧
    dio_write s port pin DIO_PIN_LOW = dio_port_write s port 0x00 (1 <<< pin) := by
  have hport4 : port < 4 := hport
  have hpin8 : pin < 8 := hpin
  have hm : 1 <<< pin < 256 := one_shiftLeft_lt_256 pin hpin8
  refine ⟨?_, ?_, ?_, ?_⟩
  · rw [dio_init_out_valid s port pin hport4 hpin8, dio_port_init_valid s port _ _ hport4,
      effMask_one_shiftLeft]
    exact congrArg (fun v => (DIO_OK, setDdr s port v))
      (isMaskedStore_eq _ _ _ _ (isMaskedStore_SET_BIT pin)
        (isMaskedStore_masked (1 <<< pin) 0xFF hm) (ddrOf s port))
  · rw [dio_init_in_valid s port pin hport4 hpin8, dio_port_init_valid s port _ _ hport4,
      effMask_one_shiftLeft]
    exact congrArg (fun v => (DIO_OK, setDdr s port v))
      (isMaskedStore_eq _ _ _ _ (isMaskedStore_CLR_BIT pin hpin8)
        (isMaskedStore_masked (1 <<< pin) 0x00 hm) (ddrOf s port))
  · rw [dio_write_valid s port pin DIO_PIN_HIGH hport4 hpin8 (by decide),
      dio_port_write_valid s port _ _ hport4 (Or.inr rfl), effMask_one_shiftLeft]
    exact congrArg (fun v => (DIO_OK, setPort s port v))
      (isMaskedStore_eq _ _ _ _ (isMaskedStore_WRITE_BIT pin DIO_PIN_HIGH hpin8 (by decide))
        (isMaskedStore_masked (1 <<< pin) 0xFF hm) (portOf s port))
  · rw [dio_write_valid s port pin DIO_PIN_LOW hport4 hpin8 (by decide),
      dio_port_write_valid s port _ _ hport4 (Or.inl rfl), effMask_one_shiftLeft]
    exact congrArg (fun v => (DIO_OK, setPort s port v))
      (isMaskedStore_eq _ _ _ _ (isMaskedStore_WRITE_BIT pin DIO_PIN_LOW hpin8 (by decide))
        (isMaskedStore_masked (1 <<< pin) 0x00 hm) (portOf s port))

/-- C23, evaluated: pin 4 of port A of the sample register file. -/
theorem C23_pin_level_is_port_level_witness :
    dio_init sampleRegs 0 4 DIO_OUT = dio_port_init sampleRegs 0 0xFF (1 <<< 4) ∧
    dio_init sampleRegs 0 4 DIO_IN = dio_port_init sampleRegs 0 0x00 (1 <<< 4) ∧
    dio_write sampleRegs 0 4 DIO_PIN_HIGH = dio_port_write sampleRegs 0 0xFF (1 <<< 4) ∧
    dio_write sampleRegs 0 4 DIO_PIN_LOW = dio_port_write sampleRegs 0 0x00 (1 <<< 4) :=
  C23_pin_level_is_port_level sampleRegs 0 4 (by decide) (by decide)

/-! ## Toggling a pin against toggling a port with a one-bit mask -/

theorem dio_port_toggle_testBit (s : Regs) (port mask i : Nat) (hport : port < 4)
    (hi : i < 8) :
    (portOf (dio_port_toggle s port mask).2 port).testBit i =
      xor ((portOf s port).testBit i) ((effMask mask).testBit i) := by
  rw [dio_port_toggle_valid s port mask hport]
  simp only [portOf_setPort s port _ hport]
  rw [testBit_mod_256, Nat.testBit_xor]
  simp [hi]

theorem portOf_dio_toggle_lt (s : Regs) (port pin : Nat) (hport : port < 4) (hpin : pin < 8) :
    portOf (dio_toggle s port pin).2 port < 256 := by
  rw [dio_toggle_valid s port pin hport hpin]
  simp only [portOf_setPort s port _ hport]
  exact Nat.mod_lt _ (by norm_num)

theorem portOf_dio_port_toggle_lt (s : Regs) (port mask : Nat) (hport : port < 4) :
    portOf (dio_port_toggle s port mask).2 port < 256 := by
  rw [dio_port_toggle_valid s port mask hport]
  simp only [portOf_setPort s port _ hport]
  exact Nat.mod_lt _ (by norm_num)

theorem exists_result_of_valid_toggle (s : Regs) (port pin : Nat) (hport : port < 4)
    (hpin : pin < 8) :
    dio_toggle s port pin = (DIO_OK, setPort s port (portOf (dio_toggle s port pin).2 port)) := by
  rw [dio_toggle_valid s port pin hport hpin]
  simp only [portOf_setPort s port _ hport]

theorem exists_result_of_valid_port_toggle (s : Regs) (port mask : Nat) (hport : port < 4) :
    dio_port_toggle s port mask =
      (DIO_OK, setPort s port (portOf (dio_port_toggle s port mask).2 port)) := by
  rw [dio_port_toggle_valid s port mask hport]
  simp only [portOf_setPort s port _ hport]

/-- C24: for every port in [0,3], pin in [0,7] and register file in which bit `pin` of the
input data register equals bit `pin` of the output data register, `dio_toggle` gives the
outcome and register file of `dio_port_toggle` with the mask `1 << pin`; in a register file
where the two bits differ, `dio_toggle` leaves the output data register as it was while
`dio_port_toggle` with that mask inverts the bit. -/
theorem C24_toggle_pin_vs_toggle_port (s : Regs) (port pin : Nat)
    (hport : port < DIO_PORT_TOTAL) (hpin : pin < DIO_PIN_TOTAL) :
    ((pinOf s port).testBit pin = (portOf s port).testBit pin →
      dio_toggle s port pin = dio_port_toggle s port (1 <<< pin)) ∧
    ((pinOf s port).testBit pin ≠ (portOf s port).testBit pin → portOf s port < 256 →
      portOf (dio_toggle s port pin).2 port = portOf s port ∧
      (portOf (dio_port_toggle s port (1 <<< pin)).2 port).testBit pin =
        !(portOf s port).testBit pin) := by
  have hport4 : port < 4 := hport
  have hpin8 : pin < 8 := hpin
  constructor
  · intro heq
    rw [exists_result_of_valid_toggle s port pin hport4 hpin8,
      exists_result_of_valid_port_toggle s port (1 <<< pin) hport4]
    refine congrArg (fun v => (DIO_OK, setPort s port v)) ?_
    refine byte_ext _ _ (portOf_dio_toggle_lt s port pin hport4 hpin8)
      (portOf_dio_port_toggle_lt s port _ hport4) (fun i hi => ?_)
    rw [dio_toggle_testBit s port pin i hport4 hpin8 hi,
      dio_port_toggle_testBit s port _ i hport4 hi, effMask_one_shiftLeft,
      one_shiftLeft_testBit, heq]
    by_cases h : pin = i
    · subst h
      simp
    · simp [h]
  · intro hne hbyte
    constructor
    · refine byte_ext _ _ (portOf_dio_toggle_lt s port pin hport4 hpin8) hbyte (fun i hi => ?_)
      rw [dio_toggle_testBit s port pin i hport4 hpin8 hi]
      by_cases h : pin = i
      · subst h
        rw [if_pos rfl]
        cases hp : (pinOf s port).testBit pin <;> cases hq : (portOf s port).testBit pin <;>
          simp_all
      · rw [if_neg h]
    · rw [dio_port_toggle_testBit s port _ pin hport4 hpin8, effMask_one_shiftLeft,
        one_shiftLeft_testBit]
      simp

/-- C24, evaluated: on port A of the sample register file the input and output bits agree
at pin 2 and differ at pin 0. -/
theorem C24_toggle_pin_vs_toggle_port_witness :
    dio_toggle sampleRegs 0 2 = dio_port_toggle sampleRegs 0 (1 <<< 2) ∧
    portOf (dio_toggle sampleRegs 0 0).2 0 = portOf sampleRegs 0 ∧
    (portOf (dio_port_toggle sampleRegs 0 (1 <<< 0)).2 0).testBit 0 =
      !(portOf sampleRegs 0).testBit 0 :=
  ⟨(C24_toggle_pin_vs_toggle_port sampleRegs 0 2 (by decide) (by decide)).1 (by decide),
    (C24_toggle_pin_vs_toggle_port sampleRegs 0 0 (by decide) (by decide)).2 (by decide)
      (by decide)⟩

/-- C25: an empty selection cannot be expressed at the port level. For every port in
[0,3], every mask in [0,255] and every register file, `dio_port_toggle` returns `DIO_OK`
and leaves the output data register of the port different from its prior value: the
effective mask is never zero, so at least one of the bits 0 to 7 is inverted. -/
theorem C25_toggle_port_always_changes (s : Regs) (port mask : Nat)
    (hport : port < DIO_PORT_TOTAL) (hmask : mask < 256) :
    (dio_port_toggle s port mask).1 = DIO_OK ∧
    effMask mask ≠ 0 ∧
    (∃ i, i < 8 ∧ (effMask mask).testBit i = true ∧
      (portOf (dio_port_toggle s port mask).2 port).testBit i =
        !(portOf s port).testBit i) ∧
    portOf (dio_port_toggle s port mask).2 port ≠ portOf s port := by
  have hport4 : port < 4 := hport
  have hm := effMask_lt mask hmask
  obtain ⟨i, hbit⟩ := Nat.ne_zero_implies_bit_true (effMask_ne_zero mask)
  have hi : i < 8 := by
    by_contra hge
    have hle : 2 ^ 8 ≤ 2 ^ i := Nat.pow_le_pow_right (by norm_num) (by omega)
    have hfalse := Nat.testBit_lt_two_pow (x := effMask mask) (i := i) (by omega)
    rw [hfalse] at hbit
    exact absurd hbit (by decide)
  have hflip : (portOf (dio_port_toggle s port mask).2 port).testBit i =
      !(portOf s port).testBit i := by
    rw [dio_port_toggle_testBit s port mask i hport4 hi, hbit]
    simp
  refine ⟨?_, effMask_ne_zero mask, ⟨i, hi, hbit, hflip⟩, ?_⟩
  · rw [dio_port_toggle_valid s port mask hport4]
  · intro heq
    rw [heq] at hflip
    cases hb : (portOf s port).testBit i <;> rw [hb] at hflip <;> exact absurd hflip (by decide)

/-- C25, evaluated: port C of the sample register file toggled with the sentinel mask 0. -/
theorem C25_toggle_port_always_changes_witness :
    (dio_port_toggle sampleRegs 2 0).1 = DIO_OK ∧
    portOf (dio_port_toggle sampleRegs 2 0).2 2 ≠ portOf sampleRegs 2 :=
  ⟨(C25_toggle_port_always_changes sampleRegs 2 0 (by decide) (by decide)).1,
    (C25_toggle_port_always_changes sampleRegs 2 0 (by decide) (by decide)).2.2.2⟩

/-! ## The setting operations as masked stores: idempotence and commutation -/

theorem setDdr_setDdr (s : Regs) (port v w : Nat) :
    setDdr (setDdr s port v) port w = setDdr s port w := by
  rcases port_cases port with rfl | rfl | rfl | rfl | hc
  · rfl
  · rfl
  · rfl
  · rfl
  · rw [setDdr_ge _ _ _ hc, setDdr_ge _ _ _ hc, setDdr_ge _ _ _ hc]

theorem setPort_comm (s : Regs) (p q a b : Nat) (h : p ≠ q) :
    setPort (setPort s p a) q b = setPort (setPort s q b) p a := by
  rcases port_cases p with rfl | rfl | rfl | rfl | hp <;>
    rcases port_cases q with rfl | rfl | rfl | rfl | hq <;>
    first
    | rfl
    | exact absurd rfl h
    | simp only [setPort_ge _ _ _ hp]
    | simp only [setPort_ge _ _ _ hq]

theorem setDdr_comm (s : Regs) (p q a b : Nat) (h : p ≠ q) :
    setDdr (setDdr s p a) q b = setDdr (setDdr s q b) p a := by
  rcases port_cases p with rfl | rfl | rfl | rfl | hp <;>
    rcases port_cases q with rfl | rfl | rfl | rfl | hq <;>
    first
    | rfl
    | exact absurd rfl h
    | simp only [setDdr_ge _ _ _ hp]
    | simp only [setDdr_ge _ _ _ hq]

theorem one_bit_masks_disjoint (n1 n2 : Nat) (h : n1 ≠ n2) :
    ∀ i, i < 8 → ¬ ((1 <<< n1).testBit i = true ∧ (1 <<< n2).testBit i = true) := by
  intro i _ hb
  rw [one_shiftLeft_testBit, one_shiftLeft_testBit] at hb
  have h1 : n1 = i := of_decide_eq_true hb.1
  have h2 : n2 = i := of_decide_eq_true hb.2
  exact h (h1.trans h2.symm)

theorem masks_disjoint_of_and_eq_zero (m1 m2 : Nat) (h : m1 &&& m2 = 0) :
    ∀ i, i < 8 → ¬ (m1.testBit i = true ∧ m2.testBit i = true) := by
  intro i _ hb
  have hz : (m1 &&& m2).testBit i = true := by
    rw [Nat.testBit_and, hb.1, hb.2]
    rfl
  rw [h, Nat.zero_testBit] at hz
  exact absurd hz (by decide)

theorem dio_init_isDdrStoreOp (port pin direction : Nat) :
    IsDdrStoreOp (fun t => dio_init t port pin direction) port (1 <<< pin) := by
  by_cases hpin : pin < 8
  · by_cases hport : port < 4
    · by_cases h0 : direction = DIO_IN
      · right
        exact ⟨hport, _, _, isMaskedStore_CLR_BIT pin hpin,
          fun t => by rw [h0]; exact dio_init_in_valid t port pin hport hpin⟩
      · by_cases h1 : direction = DIO_OUT
        · right
          exact ⟨hport, _, _, isMaskedStore_SET_BIT pin,
            fun t => by rw [h1]; exact dio_init_out_valid t port pin hport hpin⟩
        · left
          exact ⟨_, fun t => dio_init_wrong_dir t port pin direction hport hpin h0 h1⟩
    · left
      exact ⟨_, fun t => dio_init_wrong_port t port pin direction hpin (by omega)⟩
  · left
    exact ⟨_, fun t => dio_init_wrong_pin t port pin direction (by omega)⟩

theorem dio_write_isPortStoreOp (port pin value : Nat) :
    IsPortStoreOp (fun t => dio_write t port pin value) port (1 <<< pin) := by
  by_cases hpin : pin < 8
  · by_cases hport : port < 4
    · by_cases hv : value < 2
      · right
        exact ⟨hport, _, _, isMaskedStore_WRITE_BIT pin value hpin hv,
          fun t => dio_write_valid t port pin value hport hpin hv⟩
      · left
        exact ⟨_, fun t => dio_write_wrong_value t port pin value hport hpin (by omega)⟩
    · left
      exact ⟨_, fun t => dio_write_wrong_port t port pin value hpin (by omega)⟩
  · left
    exact ⟨_, fun t => dio_write_wrong_pin t port pin value (by omega)⟩

theorem dio_port_init_isDdrStoreOp (port direction mask : Nat) (hmask : mask < 256) :
    IsDdrStoreOp (fun t => dio_port_init t port direction mask) port (effMask mask) := by
  by_cases hport : port < 4
  · right
    exact ⟨hport, _, _, isMaskedStore_masked (effMask mask) direction (effMask_lt mask hmask),
      fun t => dio_port_init_valid t port direction mask hport⟩
  · left
    exact ⟨_, fun t => dio_port_init_invalid t port direction mask (by omega)⟩

theorem dio_port_write_isPortStoreOp (port value mask : Nat) (hmask : mask < 256) :
    IsPortStoreOp (fun t => dio_port_write t port value mask) port (effMask mask) := by
  by_cases hv : value = 0 ∨ value = 255
  · by_cases hport : port < 4
    · right
      exact ⟨hport, _, _, isMaskedStore_masked (effMask mask) value (effMask_lt mask hmask),
        fun t => dio_port_write_valid t port value mask hport hv⟩
    · left
      exact ⟨_, fun t => dio_port_write_invalid t port value mask (by omega) hv⟩
  · left
    exact ⟨_, fun t => dio_port_write_wrong_value t port value mask
      (fun h => hv (Or.inl h)) (fun h => hv (Or.inr h))⟩

theorem ddrStoreOp_idem (op : Regs → enu_dio_error_t_ × Regs) (port M : Nat)
    (h : IsDdrStoreOp op port M) (s : Regs) : op (op s).2 = op s := by
  rcases h with ⟨c, hc⟩ | ⟨hport, f, d, hf, hop⟩
  · rw [hc s]
    exact hc s
  · rw [hop s, hop (setDdr s port (f (ddrOf s port))), ddrOf_setDdr s port _ hport,
      setDdr_setDdr, isMaskedStore_idem f M d hf]

theorem portStoreOp_idem (op : Regs → enu_dio_error_t_ × Regs) (port M : Nat)
    (h : IsPortStoreOp op port M) (s : Regs) : op (op s).2 = op s := by
  rcases h with ⟨c, hc⟩ | ⟨hport, f, d, hf, hop⟩
  · rw [hc s]
    exact hc s
  · rw [hop s, hop (setPort s port (f (portOf s port))), portOf_setPort s port _ hport,
      setPort_setPort, isMaskedStore_idem f M d hf]

theorem ddrStoreOp_comm (op1 op2 : Regs → enu_dio_error_t_ × Regs) (p1 M1 p2 M2 : Nat)
    (h1 : IsDdrStoreOp op1 p1 M1) (h2 : IsDdrStoreOp op2 p2 M2)
    (hind : p1 ≠ p2 ∨ ∀ i, i < 8 → ¬ (M1.testBit i = true ∧ M2.testBit i = true))
    (s : Regs) : (op2 (op1 s).2).2 = (op1 (op2 s).2).2 := by
  rcases h1 with ⟨c1, hc1⟩ | ⟨hp1, f, d1, hf, hop1⟩
  · rw [hc1 s, hc1 (op2 s).2]
  · rcases h2 with ⟨c2, hc2⟩ | ⟨hp2, g, d2, hg, hop2⟩
    · rw [hc2 s, hc2 (op1 s).2]
    · rw [hop1 s, hop2 s, hop2 (setDdr s p1 (f (ddrOf s p1))),
        hop1 (setDdr s p2 (g (ddrOf s p2)))]
      show setDdr (setDdr s p1 (f (ddrOf s p1))) p2
          (g (ddrOf (setDdr s p1 (f (ddrOf s p1))) p2)) =
        setDdr (setDdr s p2 (g (ddrOf s p2))) p1
          (f (ddrOf (setDdr s p2 (g (ddrOf s p2))) p1))
      by_cases hpp : p1 = p2
      · subst hpp
        have hdisj := hind.resolve_left (fun h => h rfl)
        rw [ddrOf_setDdr s p1 _ hp1, ddrOf_setDdr s p1 _ hp1, setDdr_setDdr, setDdr_setDdr,
          isMaskedStore_comm f g M1 d1 M2 d2 hf hg hdisj]
      · rw [ddrOf_setDdr_ne s p1 p2 _ (fun h => hpp h.symm), ddrOf_setDdr_ne s p2 p1 _ hpp,
          setDdr_comm s p1 p2 _ _ hpp]

theorem portStoreOp_comm (op1 op2 : Regs → enu_dio_error_t_ × Regs) (p1 M1 p2 M2 : Nat)
    (h1 : IsPortStoreOp op1 p1 M1) (h2 : IsPortStoreOp op2 p2 M2)
    (hind : p1 ≠ p2 ∨ ∀ i, i < 8 → ¬ (M1.testBit i = true ∧ M2.testBit i = true))
    (s : Regs) : (op2 (op1 s).2).2 = (op1 (op2 s).2).2 := by
  rcases h1 with ⟨c1, hc1⟩ | ⟨hp1, f, d1, hf, hop1⟩
  · rw [hc1 s, hc1 (op2 s).2]
  · rcases h2 with ⟨c2, hc2⟩ | ⟨hp2, g, d2, hg, hop2⟩
    · rw [hc2 s, hc2 (op1 s).2]
    · rw [hop1 s, hop2 s, hop2 (setPort s p1 (f (portOf s p1))),
        hop1 (setPort s p2 (g (portOf s p2)))]
      show setPort (setPort s p1 (f (portOf s p1))) p2
          (g (portOf (setPort s p1 (f (portOf s p1))) p2)) =
        setPort (setPort s p2 (g (portOf s p2))) p1
          (f (portOf (setPort s p2 (g (portOf s p2))) p1))
      by_cases hpp : p1 = p2
      · subst hpp
        have hdisj := hind.resolve_left (fun h => h rfl)
        rw [portOf_setPort s p1 _ hp1, portOf_setPort s p1 _ hp1, setPort_setPort,
          setPort_setPort, isMaskedStore_comm f g M1 d1 M2 d2 hf hg hdisj]
      · rw [portOf_setPort_ne s p1 p2 _ (fun h => hpp h.symm),
          portOf_setPort_ne s p2 p1 _ hpp, setPort_comm s p1 p2 _ _ hpp]

/-- C26: idempotence of the setting operations. For all arguments (the mask a byte) and
every register file, `dio_init`, `dio_write`, `dio_port_init` and `dio_port_write` applied
twice in succession with the same arguments give the outcome code and the register file of
a single application. -/
theorem C26_setting_operations_idempotent (s : Regs)
    (port pin direction value portDir portVal mask : Nat) (hmask : mask < 256) :
    dio_init (dio_init s port pin direction).2 port pin direction =
      dio_init s port pin direction ∧
    dio_write (dio_write s port pin value).2 port pin value = dio_write s port pin value ∧
    dio_port_init (dio_port_init s port portDir mask).2 port portDir mask =
      dio_port_init s port portDir mask ∧
    dio_port_write (dio_port_write s port portVal mask).2 port portVal mask =
      dio_port_write s port portVal mask :=
  ⟨ddrStoreOp_idem _ port _ (dio_init_isDdrStoreOp port pin direction) s,
    portStoreOp_idem _ port _ (dio_write_isPortStoreOp port pin value) s,
    ddrStoreOp_idem _ port _ (dio_port_init_isDdrStoreOp port portDir mask hmask) s,
    portStoreOp_idem _ port _ (dio_port_write_isPortStoreOp port portVal mask hmask) s⟩

/-- C26, evaluated: pin 6 of port B and the mask 0x3C on the sample register file. -/
theorem C26_setting_operations_idempotent_witness :
    dio_init (dio_init sampleRegs 1 6 1).2 1 6 1 = dio_init sampleRegs 1 6 1 ∧
    dio_write (dio_write sampleRegs 1 6 0).2 1 6 0 = dio_write sampleRegs 1 6 0 ∧
    dio_port_init (dio_port_init sampleRegs 1 0xFF 0x3C).2 1 0xFF 0x3C =
      dio_port_init sampleRegs 1 0xFF 0x3C ∧
    dio_port_write (dio_port_write sampleRegs 1 0xFF 0x3C).2 1 0xFF 0x3C =
      dio_port_write sampleRegs 1 0xFF 0x3C :=
  C26_setting_operations_idempotent sampleRegs 1 6 1 0 0xFF 0xFF 0x3C (by decide)

/-- C27: independent targets commute. For every register file, two `dio_write` calls, or
two `dio_init` calls, whose (port, pin) pairs differ give the same register file in either
order; two `dio_port_write` calls, or two `dio_port_init` calls, on different ports, or on
the same port with normalised masks that share no bit, give the same register file in
either order. -/
theorem C27_independent_targets_commute (s : Regs)
    (p1 n1 v1 d1 w1 e1 m1 p2 n2 v2 d2 w2 e2 m2 : Nat) (hm1 : m1 < 256) (hm2 : m2 < 256) :
    ((p1, n1) ≠ (p2, n2) →
      (dio_write (dio_write s p1 n1 v1).2 p2 n2 v2).2 =
        (dio_write (dio_write s p2 n2 v2).2 p1 n1 v1).2 ∧
      (dio_init (dio_init s p1 n1 d1).2 p2 n2 d2).2 =
        (dio_init (dio_init s p2 n2 d2).2 p1 n1 d1).2) ∧
    (p1 ≠ p2 ∨ effMask m1 &&& effMask m2 = 0 →
      (dio_port_write (dio_port_write s p1 w1 m1).2 p2 w2 m2).2 =
        (dio_port_write (dio_port_write s p2 w2 m2).2 p1 w1 m1).2 ∧
      (dio_port_init (dio_port_init s p1 e1 m1).2 p2 e2 m2).2 =
        (dio_port_init (dio_port_init s p2 e2 m2).2 p1 e1 m1).2) := by
  constructor
  · intro hne
    have hind : p1 ≠ p2 ∨
        ∀ i, i < 8 → ¬ ((1 <<< n1).testBit i = true ∧ (1 <<< n2).testBit i = true) := by
      by_cases hp : p1 = p2
      · right
        refine one_bit_masks_disjoint n1 n2 (fun hn => hne ?_)
        rw [hp, hn]
      · exact Or.inl hp
    exact ⟨portStoreOp_comm _ _ p1 _ p2 _ (dio_write_isPortStoreOp p1 n1 v1)
        (dio_write_isPortStoreOp p2 n2 v2) hind s,
      ddrStoreOp_comm _ _ p1 _ p2 _ (dio_init_isDdrStoreOp p1 n1 d1)
        (dio_init_isDdrStoreOp p2 n2 d2) hind s⟩
  · intro hne
    have hind : p1 ≠ p2 ∨
        ∀ i, i < 8 → ¬ ((effMask m1).testBit i = true ∧ (effMask m2).testBit i = true) :=
      hne.imp id (masks_disjoint_of_and_eq_zero _ _)
    exact ⟨portStoreOp_comm _ _ p1 _ p2 _ (dio_port_write_isPortStoreOp p1 w1 m1 hm1)
        (dio_port_write_isPortStoreOp p2 w2 m2 hm2) hind s,
      ddrStoreOp_comm _ _ p1 _ p2 _ (dio_port_init_isDdrStoreOp p1 e1 m1 hm1)
        (dio_port_init_isDdrStoreOp p2 e2 m2 hm2) hind s⟩

/-- C27, evaluated: pins 1 and 5 of port A, and the masks 0x0F and 0xF0 on port A, of the
sample register file. -/
theorem C27_independent_targets_commute_witness :
    ((dio_write (dio_write sampleRegs 0 1 1).2 0 5 0).2 =
        (dio_write (dio_write sampleRegs 0 5 0).2 0 1 1).2 ∧
      (dio_init (dio_init sampleRegs 0 1 0).2 0 5 1).2 =
        (dio_init (dio_init sampleRegs 0 5 1).2 0 1 0).2) ∧
    ((dio_port_write (dio_port_write sampleRegs 0 0xFF 0x0F).2 0 0x00 0xF0).2 =
        (dio_port_write (dio_port_write sampleRegs 0 0x00 0xF0).2 0 0xFF 0x0F).2 ∧
      (dio_port_init (dio_port_init sampleRegs 0 0x00 0x0F).2 0 0xFF 0xF0).2 =
        (dio_port_init (dio_port_init sampleRegs 0 0xFF 0xF0).2 0 0x00 0x0F).2) :=
  ⟨(C27_independent_targets_commute sampleRegs 0 1 1 0 0xFF 0x00 0x0F 0 5 0 1 0x00 0xFF 0xF0
      (by decide) (by decide)).1 (by decide),
    (C27_independent_targets_commute sampleRegs 0 1 1 0 0xFF 0x00 0x0F 0 5 0 1 0x00 0xFF 0xF0
      (by decide) (by decide)).2 (Or.inr (by decide))⟩

end Dio
